import Mathlib

/-!
Verification of the resource-graph model and layout-directed diagram
generator of the azviz repository (src/azviz/visualization/graph_builder.py,
src/azviz/visualization/dot_generator.py, src/azviz/core/models.py).

Python strings are modelled as lists of characters (`Str`); Python's
ordered dictionaries are modelled as association lists with
insertion-ordered bucket updates; fallible lookups return `Option`.
-/

namespace AzViz

/-- Python strings, modelled as lists of characters. -/
abbrev Str := List Char

/-- Models Python `str.lower()` (per-character, as for the ASCII identifiers
used throughout the code base). -/
def pyLower (s : Str) : Str := s.map Char.toLower

/-- Models Python `str.replace(old, new)` for single-character `old`/`new`. -/
def pyReplaceChar (old new : Char) (s : Str) : Str :=
  s.map fun c => if c = old then new else c

/-- Models Python `str.split(sep)` for a single-character separator:
`"".split(sep) == ['']`, and a separator occurrence always opens a new
(possibly empty) segment. -/
def splitChar (sep : Char) : Str → List Str
  | [] => [[]]
  | c :: rest =>
    let r := splitChar sep rest
    if c = sep then [] :: r
    else
      match r with
      | [] => [[c]]
      | h :: t => (c :: h) :: t

/-- Models Python `needle in haystack` substring containment. -/
def pyContains (haystack needle : Str) : Bool :=
  haystack.tails.any fun t => needle.isPrefixOf t

/-- `GraphBuilder._matches_pattern` (graph_builder.py lines 240-263):
wildcard handling via `pattern.lower().split('*')`; a two-part split is
matched with startswith/endswith; anything else falls through to the
final case-insensitive exact comparison. -/
def matchesPattern (resource_type pattern : Str) : Bool :=
  if '*' ∈ pattern then
    let pattern_parts := splitChar '*' (pyLower pattern)
    let resource_type_lower := pyLower resource_type
    if pattern_parts.length = 1 then
      pyContains resource_type_lower (pattern_parts.getD 0 [])
    else if pattern_parts.length = 2 then
      (pattern_parts.getD 0 []).isPrefixOf resource_type_lower &&
        (pattern_parts.getD 1 []).isSuffixOf resource_type_lower
    else pyLower resource_type == pyLower pattern
  else pyLower resource_type == pyLower pattern

/-- The three id-sanitising replacements of `_create_resource_node`
(graph_builder.py line 342): `.replace(' ', '_').replace('-', '_').replace('.', '_')`. -/
def idSanitize (s : Str) : Str :=
  pyReplaceChar '.' '_' (pyReplaceChar '-' '_' (pyReplaceChar ' ' '_' s))

/-- `resource_type.split('/')[-1].lower() if '/' in resource_type else
resource_type.lower()` (graph_builder.py line 341). -/
def typeSuffix (resource_type : Str) : Str :=
  if '/' ∈ resource_type then pyLower ((splitChar '/' resource_type).getLastD [])
  else pyLower resource_type

/-- Node id synthesis of `GraphBuilder._create_resource_node`
(graph_builder.py lines 341-342): the sanitised
`f"{category.lower()}_{name.lower()}_{type_suffix}"`. -/
def createResourceNodeId (category name resource_type : Str) : Str :=
  idSanitize (pyLower category ++ [ '_' ] ++ pyLower name ++ [ '_' ] ++ typeSuffix resource_type)

/-! ### Data model (core/models.py) -/

/-- `DependencyType` (models.py): explicit API relationship or derived heuristic. -/
inductive DependencyType
  | explicit
  | derived
deriving DecidableEq, Repr

/-- A dependency entry: Python allows either a bare string or a
`ResourceDependency(target_name, dependency_type, description)` record. -/
inductive Dep
  | ofStr (target : Str)
  | ofDep (target : Str) (dtype : DependencyType) (description : Option Str)
deriving DecidableEq, Repr

/-- Target name of a dependency entry (the `isinstance(dependency, str)`
branch of `_create_dependency_edges`). -/
def Dep.targetName : Dep → Str
  | .ofStr t => t
  | .ofDep t _ _ => t

/-- Dependency type: bare strings count as explicit. -/
def Dep.dtype : Dep → DependencyType
  | .ofStr _ => .explicit
  | .ofDep _ ty _ => ty

/-- Optional free-text description: bare strings carry none. -/
def Dep.descr : Dep → Option Str
  | .ofStr _ => none
  | .ofDep _ _ d => d

/-- Property-bag values.  Scalars are kept; a list of dictionaries is the
one non-scalar shape `_create_resource_node` passes through; lists of
strings (e.g. DNS domain lists) are used by the DNS-zone heuristics.
Floats are not modelled (no claim depends on them). -/
inductive PropVal
  | pstr (s : Str)
  | pint (n : Int)
  | pbool (b : Bool)
  | pstrlist (l : List Str)
  | pdicts (l : List (List (Str × Str)))
deriving DecidableEq, Repr

/-- `AzureResource` (models.py).  The tag map is omitted: it is never read
by the graph builder or the DOT generator. -/
structure AzureResource where
  name : Str
  resource_type : Str
  category : Str
  location : Str
  resource_group : Str
  subscription_id : Str
  properties : List (Str × PropVal) := []
  dependencies : List Dep := []
deriving DecidableEq, Repr, Inhabited

/-- `AzureResource.get_dependency_names`. -/
def AzureResource.dependencyNames (r : AzureResource) : List Str :=
  r.dependencies.map Dep.targetName

/-! ### Ordered-dictionary buckets

Python's `dict`/`defaultdict` preserve insertion order; updating an
existing key keeps its position.  Modelled as association lists. -/

/-- Append `x` to the bucket of key `k`, creating the bucket at the end if
the key is new (the `defaultdict(list)` pattern). -/
def insertBucket {κ α : Type} [DecidableEq κ] (k : κ) (x : α) :
    List (κ × List α) → List (κ × List α)
  | [] => [(k, [x])]
  | (q, xs) :: rest =>
    if q = k then (q, xs ++ [x]) :: rest else (q, xs) :: insertBucket k x rest

/-- Bucket contents of key `k` (empty for an absent key). -/
def bucketGet {κ α : Type} [DecidableEq κ] (k : κ) : List (κ × List α) → List α
  | [] => []
  | (q, xs) :: rest => if q = k then xs else bucketGet k rest

/-- Group key of `GraphBuilder._group_resources`: category at grouping
depth 1, full type string otherwise. -/
def groupKey (category_depth : Nat) (r : AzureResource) : Str :=
  if category_depth = 1 then r.category else r.resource_type

/-- `GraphBuilder._group_resources` (graph_builder.py lines 265-285). -/
def groupResources (category_depth : Nat) (resources : List AzureResource) :
    List (Str × List AzureResource) :=
  resources.foldl (fun acc r => insertBucket (groupKey category_depth r) r acc) []

/-- The first-occurrence subsequence of a list (each element kept at its
first position only). -/
def firstOccurrences {α : Type} [DecidableEq α] : List α → List α
  | [] => []
  | x :: xs => x :: (firstOccurrences xs).filter (fun y => y ≠ x)

/-! ### Bucket and grouping lemmas -/

theorem map_fst_insertBucket {κ α : Type} [DecidableEq κ] (k : κ) (x : α)
    (l : List (κ × List α)) :
    (insertBucket k x l).map Prod.fst =
      if k ∈ l.map Prod.fst then l.map Prod.fst else l.map Prod.fst ++ [k] := by
  induction l with
  | nil => simp [insertBucket]
  | cons p rest ih =>
    obtain ⟨q, xs⟩ := p
    by_cases h : q = k
    · subst h; simp [insertBucket]
    · by_cases hm : k ∈ rest.map Prod.fst <;>
        simp [insertBucket, h, ih, hm, Ne.symm h]

theorem bucketGet_insertBucket {κ α : Type} [DecidableEq κ] (k q : κ) (x : α)
    (l : List (κ × List α)) :
    bucketGet q (insertBucket k x l) =
      if q = k then bucketGet q l ++ [x] else bucketGet q l := by
  induction l with
  | nil =>
    by_cases h : q = k
    · subst h; simp [insertBucket, bucketGet]
    · simp [insertBucket, bucketGet, h, Ne.symm h]
  | cons p rest ih =>
    obtain ⟨p1, xs⟩ := p
    by_cases h : p1 = k
    · subst h
      by_cases hq : p1 = q
      · subst hq
        simp [insertBucket, bucketGet]
      · simp [insertBucket, bucketGet, hq, Ne.symm hq]
    · by_cases hq : p1 = q
      · subst hq
        simp [insertBucket, bucketGet, h]
      · simp [insertBucket, bucketGet, h, hq, ih]

theorem mem_firstOccurrences {α : Type} [DecidableEq α] (a : α) (l : List α) :
    a ∈ firstOccurrences l ↔ a ∈ l := by
  induction l with
  | nil => simp [firstOccurrences]
  | cons x xs ih =>
    by_cases h : a = x
    · simp [firstOccurrences, h]
    · simp [firstOccurrences, h, List.mem_filter, ih]

theorem firstOccurrences_append_singleton {α : Type} [DecidableEq α]
    (l : List α) (a : α) :
    firstOccurrences (l ++ [a]) =
      if a ∈ l then firstOccurrences l else firstOccurrences l ++ [a] := by
  induction l with
  | nil => simp [firstOccurrences]
  | cons x xs ih =>
    simp only [List.cons_append, firstOccurrences, ih]
    by_cases hax : a ∈ xs
    · simp [hax, ih]
    · by_cases hx : a = x
      · subst hx
        simp [hax, ih, List.filter_append]
      · simp [hax, hx, Ne.symm hx, ih, List.filter_append]

theorem groupResources_concat (d : Nat) (rs : List AzureResource) (r : AzureResource) :
    groupResources d (rs ++ [r]) = insertBucket (groupKey d r) r (groupResources d rs) := by
  simp [groupResources, List.foldl_append]

theorem groupResources_keys (d : Nat) (rs : List AzureResource) :
    (groupResources d rs).map Prod.fst = firstOccurrences (rs.map (groupKey d)) := by
  induction rs using List.reverseRecOn with
  | nil => simp [groupResources, firstOccurrences]
  | append_singleton rs r ih =>
    rw [groupResources_concat, map_fst_insertBucket, ih, List.map_append]
    simp only [List.map_cons, List.map_nil]
    rw [firstOccurrences_append_singleton]
    simp [mem_firstOccurrences]

theorem groupResources_bucket (d : Nat) (k : Str) (rs : List AzureResource) :
    bucketGet k (groupResources d rs) = rs.filter (fun r => groupKey d r = k) := by
  induction rs using List.reverseRecOn with
  | nil => simp [groupResources, bucketGet]
  | append_singleton rs r ih =>
    rw [groupResources_concat, bucketGet_insertBucket, ih]
    by_cases h : groupKey d r = k
    · simp [h, List.filter_append]
    · simp [h, Ne.symm h, List.filter_append]

/-! ### Node id synthesis lemmas -/

theorem idSanitize_append (a b : Str) :
    idSanitize (a ++ b) = idSanitize a ++ idSanitize b := by
  simp [idSanitize, pyReplaceChar]

theorem idSanitize_underscore : idSanitize [ '_' ] = [ '_' ] := by decide

theorem createResourceNodeId_decomp (category name resource_type : Str) :
    createResourceNodeId category name resource_type =
      idSanitize (pyLower category) ++ '_' :: idSanitize (pyLower name) ++
        '_' :: idSanitize (typeSuffix resource_type) := by
  unfold createResourceNodeId
  rw [idSanitize_append, idSanitize_append, idSanitize_append, idSanitize_append,
    idSanitize_underscore]
  simp

/-! ### Claim theorems: C1, C2, C9 -/

/-- C1: the wildcard matcher evaluated against the spec's three rules.  The
pattern `"*subnets*"` splits (after lower-casing) into three parts, falls
past both wildcard branches, and is compared for exact equality, so it
does NOT match `"Provider/virtualNetworks/subnets"`, contradicting the
claimed substring-containment rule; the no-wildcard exact rule and the
single-wildcard prefix/suffix rule behave as claimed. -/
theorem C1_matches_pattern_eval :
    matchesPattern "Provider/virtualNetworks/subnets".data "*subnets*".data = false ∧
    matchesPattern "Provider/loadBalancers".data "provider/loadbalancers".data = true ∧
    matchesPattern "Provider/loadBalancers".data "Provider/virtualNetworks".data = false ∧
    matchesPattern "Provider/virtualNetworks/subnets".data "*subnets".data = true := by
  decide

/-- C2 counterexample: two resources of the same category and type whose
names differ only in a hyphen versus an underscore receive the same
synthesized node id, so id synthesis is not collision-free for all
resources differing in name. -/
theorem C2_counterexample :
    "vm-1".data ≠ "vm_1".data ∧
    createResourceNodeId "Compute".data "vm-1".data "Microsoft.Compute/virtualMachines".data =
      createResourceNodeId "Compute".data "vm_1".data "Microsoft.Compute/virtualMachines".data := by
  decide

/-- C2 (amended): node id synthesis is the pure function joining the
sanitised lower-cased category, name, and type suffix with underscores;
ids are distinct for two resources of the same category and type whose
names still differ after lower-casing and replacing spaces, hyphens, and
dots by underscores. -/
theorem C2_node_id_amended :
    (∀ category name resource_type,
      createResourceNodeId category name resource_type =
        idSanitize (pyLower category) ++ '_' :: idSanitize (pyLower name) ++
          '_' :: idSanitize (typeSuffix resource_type)) ∧
    (∀ category name1 name2 resource_type,
      idSanitize (pyLower name1) ≠ idSanitize (pyLower name2) →
      createResourceNodeId category name1 resource_type ≠
        createResourceNodeId category name2 resource_type) := by
  refine ⟨createResourceNodeId_decomp, ?_⟩
  intro category name1 name2 resource_type hne heq
  rw [createResourceNodeId_decomp, createResourceNodeId_decomp] at heq
  have h1 := List.append_cancel_right heq
  have h2 := List.append_cancel_left h1
  injection h2 with _ h3
  exact hne h3

/-- Witness for C2: the amended distinctness applied at concrete input. -/
theorem C2_node_id_amended_witness :
    createResourceNodeId "Compute".data "vm1".data "T/x".data ≠
      createResourceNodeId "Compute".data "vm2".data "T/x".data :=
  C2_node_id_amended.2 "Compute".data "vm1".data "vm2".data "T/x".data (by decide)

/-! ### Configuration and graph entities -/

/-- Shorthand turning a Lean string literal into the character-list model. -/
def S (s : String) : Str := s.data

/-- `LabelVerbosity` (models.py): 1 / 2 / 3. -/
inductive LabelVerbosity
  | minimal
  | standard
  | detailed
deriving DecidableEq, Repr

/-- Numeric `.value` of the verbosity enum. -/
def LabelVerbosity.val : LabelVerbosity → Nat
  | .minimal => 1
  | .standard => 2
  | .detailed => 3

/-- `Theme` (models.py). -/
inductive Theme
  | light
  | dark
  | neon
deriving DecidableEq, Repr

/-- `Direction` (models.py). -/
inductive Direction
  | leftToRight
  | topToBottom
deriving DecidableEq, Repr

/-- `Splines` (models.py), with its `.value` strings. -/
inductive Splines
  | polyline
  | curved
  | ortho
  | line
  | spline
deriving DecidableEq, Repr

def Splines.val : Splines → Str
  | .polyline => S "polyline"
  | .curved => S "curved"
  | .ortho => S "ortho"
  | .line => S "line"
  | .spline => S "spline"

/-- `VisualizationConfig` (models.py).  The exclusion set is modelled as a
list: only `any`-style membership over it is ever observed.  Fields not
read by the graph builder or DOT generator (output format/file) are
omitted. -/
structure VisualizationConfig where
  resource_groups : List Str := []
  label_verbosity : LabelVerbosity := .standard
  category_depth : Nat := 2
  theme : Theme := .light
  direction : Direction := .leftToRight
  splines : Splines := .polyline
  exclude_types : List Str := []
  show_legends : Bool := true
  show_power_state : Bool := true
  compute_only : Bool := false
deriving DecidableEq, Repr

/-- `ResourceRanking.get_rank` (models.py lines 152-181). -/
def getRank (resource_type : Str) : Nat :=
  let t := pyLower resource_type
  if t = S "microsoft.network/dnszones" then 1
  else if t = S "microsoft.network/privatednszones" then 1
  else if t = S "microsoft.network/publicipaddresses" then 2
  else if t = S "microsoft.network/loadbalancers" then 3
  else if t = S "microsoft.redhatopenshift/openshiftclusters" then 4
  else if t = S "microsoft.containerservice/managedclusters" then 4
  else if t = S "microsoft.network/virtualnetworks" then 5
  else if t = S "microsoft.network/privatednszones/virtualnetworklinks" then 5
  else if t = S "microsoft.network/routetables" then 6
  else if t = S "microsoft.network/networksecuritygroups" then 6
  else if t = S "microsoft.network/networkinterfaces" then 7
  else if t = S "microsoft.compute/sshpublickeys" then 7
  else if t = S "microsoft.managedidentity/userassignedidentities" then 7
  else if t = S "microsoft.compute/virtualmachines" then 8
  else if t = S "microsoft.compute/disks" then 9
  else if t = S "microsoft.compute/snapshots" then 10
  else if t = S "microsoft.compute/galleries" then 11
  else if t = S "microsoft.compute/galleries/images" then 12
  else if t = S "microsoft.compute/galleries/images/versions" then 13
  else if t = S "microsoft.storage/storageaccounts" then 14
  else 99

/-- Attribute bag attached to a graph node: individual resource nodes and
grouped nodes carry different key sets (graph_builder.py lines 317-328 and
345-368). -/
inductive NodeAttributes
  | resourceAttrs (resource_group : Str) (location : Str) (ranking : Nat)
      (shape : Str) (style : Str) (power_state : Option PropVal)
      (properties : Option (List (Str × PropVal)))
  | groupAttrs (resource_count : Nat) (resources : List Str)
      (shape : Str) (style : Str)
deriving DecidableEq, Repr, Inhabited

/-- `GraphNode` (models.py). -/
structure GraphNode where
  id : Str
  name : Str
  label : Str
  category : Str
  resource_type : Str
  attributes : NodeAttributes
deriving DecidableEq, Repr, Inhabited

/-- `GraphEdge` (models.py); the style/attribute bag holds string values in
insertion order. -/
structure GraphEdge where
  source : Str
  target : Str
  label : Str := []
  edge_type : Str := S "association"
  attributes : List (Str × Str) := []
deriving DecidableEq, Repr

/-- Python truthiness plus lower-cased comparison used by the
`resource_type and resource_type.lower() == '...'` guards of
`_build_node_label`. -/
def rtIs (resource_type : Option Str) (s : Str) : Bool :=
  match resource_type with
  | none => false
  | some t => !t.isEmpty && (pyLower t == s)

/-- `name.split('/')[-1]`. -/
def lastSegment (name : Str) : Str := (splitChar '/' name).getLastD []

/-- `GraphBuilder._build_node_label` (graph_builder.py lines 379-460). -/
def buildNodeLabel (cfg : VisualizationConfig) (name : Str) (resource_names : List Str)
    (category : Str) (resource_type : Option Str) : Str :=
  if rtIs resource_type (S "microsoft.compute/sshpublickeys") then
    match cfg.label_verbosity with
    | .minimal => name
    | .standard => name ++ S "\\n(SSH Public Key)"
    | .detailed => name ++ S "\\n(SSH Public Key)\\nAuthentication Credential"
  else if rtIs resource_type (S "microsoft.compute/galleries") then
    match cfg.label_verbosity with
    | .minimal => name
    | .standard => name ++ S "\\n(Compute Gallery)"
    | .detailed => name ++ S "\\n(Compute Gallery)\\nImage Repository"
  else if rtIs resource_type (S "microsoft.compute/galleries/images") then
    match cfg.label_verbosity with
    | .minimal => lastSegment name
    | .standard => lastSegment name ++ S "\\n(Gallery Image)"
    | .detailed => lastSegment name ++ S "\\n(Gallery Image)\\nImage Definition"
  else if rtIs resource_type (S "microsoft.compute/galleries/images/versions") then
    match cfg.label_verbosity with
    | .minimal => lastSegment name
    | .standard => S "v" ++ lastSegment name ++ S "\\n(Image Version)"
    | .detailed => S "v" ++ lastSegment name ++ S "\\n(Image Version)\\nVersioned Image"
  else if rtIs resource_type (S "microsoft.managedidentity/userassignedidentities") then
    match cfg.label_verbosity with
    | .minimal => name
    | .standard => name ++ S "\\n(Managed Identity)"
    | .detailed => name ++ S "\\n(Managed Identity)\\nAuthentication Service"
  else if rtIs resource_type (S "microsoft.network/privatednszones") then
    match cfg.label_verbosity with
    | .minimal => name
    | .standard => name ++ S "\\n(Private DNS Zone)"
    | .detailed => name ++ S "\\n(Private DNS Zone)\\nInternal DNS Resolution"
  else if rtIs resource_type (S "microsoft.network/privatednszones/virtualnetworklinks") then
    match cfg.label_verbosity with
    | .minimal => lastSegment name
    | .standard => lastSegment name ++ S "\\n(VNet Link)"
    | .detailed => lastSegment name ++ S "\\n(VNet Link)\\nDNS-VNet Connection"
  else
    match cfg.label_verbosity with
    | .minimal => name
    | .standard => name ++ S "\\n(" ++ category ++ S ")"
    | .detailed =>
      if resource_names.length > 1 then
        name ++ S "\\n(" ++ category ++ S ")\\n" ++
          (Nat.repr resource_names.length).data ++ S " resources"
      else name ++ S "\\n(" ++ category ++ S ")"

/-- First property value stored under key `k`. -/
def lookupProp (props : List (Str × PropVal)) (k : Str) : Option PropVal :=
  (props.find? fun p => p.1 == k).map Prod.snd

/-- `isinstance(value, (str, int, float, bool))` over the modelled shapes. -/
def PropVal.isScalar : PropVal → Bool
  | .pstr _ => true
  | .pint _ => true
  | .pbool _ => true
  | _ => false

/-- `isinstance(value, list) and all(isinstance(item, dict) for item in value)`. -/
def PropVal.isDictList : PropVal → Bool
  | .pdicts _ => true
  | _ => false

/-- The `safe_props` filter of `_create_resource_node` (lines 359-368). -/
def safeProps (props : List (Str × PropVal)) : List (Str × PropVal) :=
  props.filter fun p => p.2.isScalar || p.2.isDictList

/-- `GraphBuilder._create_resource_node` (graph_builder.py lines 331-377). -/
def createResourceNode (cfg : VisualizationConfig) (r : AzureResource) : GraphNode :=
  { id := createResourceNodeId r.category r.name r.resource_type
    name := r.name
    label := buildNodeLabel cfg r.name [r.name] r.category (some r.resource_type)
    category := r.category
    resource_type := r.resource_type
    attributes := .resourceAttrs r.resource_group r.location (getRank r.resource_type)
      (S "box") (S "filled")
      (if r.resource_type = S "Microsoft.Compute/virtualMachines" then
        lookupProp r.properties (S "power_state")
       else none)
      (if r.properties.isEmpty then none else some (safeProps r.properties)) }

/-- `GraphBuilder._create_group_node` (graph_builder.py lines 304-329). -/
def createGroupNode (cfg : VisualizationConfig) (group_key : Str)
    (resources : List AzureResource) : GraphNode :=
  let resource_names := resources.map AzureResource.name
  let category := (resources.headD default).category
  { id := S "group_" ++
      pyReplaceChar '/' '_' (pyReplaceChar '.' '_' (pyLower group_key))
    name := group_key
    label := buildNodeLabel cfg group_key resource_names category (some group_key)
    category := category
    resource_type := group_key
    attributes := .groupAttrs resources.length resource_names (S "box") (S "filled") }

/-- `GraphBuilder._create_resource_nodes` (graph_builder.py lines 287-302). -/
def createResourceNodes (cfg : VisualizationConfig)
    (grouped : List (Str × List AzureResource)) : List GraphNode :=
  grouped.flatMap fun g =>
    if cfg.category_depth = 1 ∧ g.2.length > 1 then [createGroupNode cfg g.1 g.2]
    else g.2.map (createResourceNode cfg)

/-! ### Compute-only filtering (graph_builder.py lines 109-238) -/

/-- The fixed compute resource type set (lines 121-132). -/
def computeResourceTypes : List Str :=
  [S "microsoft.compute/virtualmachines",
   S "microsoft.compute/virtualmachinescalesets",
   S "microsoft.compute/disks",
   S "microsoft.compute/snapshots",
   S "microsoft.compute/sshpublickeys",
   S "microsoft.compute/galleries",
   S "microsoft.compute/galleries/images",
   S "microsoft.compute/galleries/images/versions",
   S "microsoft.containerservice/managedclusters",
   S "microsoft.redhatopenshift/openshiftclusters"]

/-- The fixed compute-related type set (lines 135-144). -/
def computeRelatedTypes : List Str :=
  [S "microsoft.network/networkinterfaces",
   S "microsoft.network/publicipaddresses",
   S "microsoft.network/virtualnetworks/subnets",
   S "microsoft.network/networksecuritygroups",
   S "microsoft.network/loadbalancers",
   S "microsoft.storage/storageaccounts",
   S "microsoft.managedidentity/userassignedidentities",
   S "internet/gateway"]

/-- `s.replace(sep, '')`. -/
def pyStrip (sep : Char) (s : Str) : Str := s.filter fun c => c ≠ sep

/-- `s[:n]`. -/
def pyTake (n : Nat) (s : Str) : Str := s.take n

/-- The VM/related-resource naming-pattern test of step 4 (lines 213-218). -/
def vmNameCond (vm_name resource_name : Str) : Bool :=
  pyContains resource_name vm_name ||
  pyContains vm_name resource_name ||
  ([ '-', '_', ' ' ].any fun sep => pyStrip sep vm_name == pyStrip sep resource_name) ||
  (([pyTake 4 vm_name, pyTake 6 vm_name].filter fun pre => pre.length ≥ 3).any
    fun pre => pre.isPrefixOf vm_name && pre.isPrefixOf resource_name)

/-- The shared accumulation shape of the five compute-only steps: scan
the candidate pool in order and append each resource that satisfies the
step's condition and whose name is not yet recorded (each Python step
appends to `related_resources` and `related_resource_names` in lock
step, so the name set is exactly the names of the accumulated list). -/
def addPass (cond : AzureResource → Prop) [DecidablePred cond]
    (pool st : List AzureResource) : List AzureResource :=
  pool.foldl (fun rel r =>
    if cond r ∧ r.name ∉ rel.map AzureResource.name then rel ++ [r] else rel) st

/-- Step-1 condition (lines 167-173): related-typed, sharing a resource
group with a compute resource or being the Internet gateway. -/
def cond1 (computes : List AzureResource) (r : AzureResource) : Prop :=
  pyLower r.resource_type ∈ computeRelatedTypes ∧
    (r.resource_group ∈ computes.map AzureResource.resource_group ∨
      pyLower r.resource_type = S "internet/gateway")

instance (computes : List AzureResource) : DecidablePred (cond1 computes) := fun _ =>
  inferInstanceAs (Decidable (_ ∧ _))

/-- Step-2/5 inner condition: named dependency target of the expected type. -/
def condNamed (dep : Str) (ty_test : AzureResource → Prop) [DecidablePred ty_test]
    (r : AzureResource) : Prop :=
  r.name = dep ∧ ty_test r

instance (dep : Str) (ty_test : AzureResource → Prop) [DecidablePred ty_test] :
    DecidablePred (condNamed dep ty_test) := fun _ =>
  inferInstanceAs (Decidable (_ ∧ _))

/-- Related-typed test. -/
def relatedTy (r : AzureResource) : Prop :=
  pyLower r.resource_type ∈ computeRelatedTypes

instance : DecidablePred relatedTy := fun _ =>
  inferInstanceAs (Decidable (_ ∈ _))

/-- Subnet-typed test (step 5). -/
def subnetTy (r : AzureResource) : Prop :=
  pyLower r.resource_type = S "microsoft.network/virtualnetworks/subnets"

instance : DecidablePred subnetTy := fun _ => inferInstanceAs (Decidable (_ = _))

/-- Step-3 condition (lines 189-197): related-typed and depending on some
compute resource (the `for ... if dependency in compute_resource_names:
... break` loop is the existential over the dependency list). -/
def cond3 (computes : List AzureResource) (r : AzureResource) : Prop :=
  relatedTy r ∧ ∃ dep ∈ r.dependencyNames, dep ∈ computes.map AzureResource.name

instance (computes : List AzureResource) : DecidablePred (cond3 computes) := fun _ =>
  inferInstanceAs (Decidable (_ ∧ _))

/-- Step-4 condition (lines 206-218): related-typed and matching the VM's
naming pattern. -/
def cond4 (c : AzureResource) (r : AzureResource) : Prop :=
  relatedTy r ∧ vmNameCond (pyLower c.name) (pyLower r.name) = true

instance (c : AzureResource) : DecidablePred (cond4 c) := fun _ =>
  inferInstanceAs (Decidable (_ ∧ _))

/-- Step 1 (lines 163-175). -/
def step1 (resources computes related : List AzureResource) : List AzureResource :=
  addPass (cond1 computes) resources related

/-- Step 2 (lines 177-185): related-typed dependency targets of compute
resources. -/
def step2 (resources computes related : List AzureResource) : List AzureResource :=
  computes.foldl (fun rel c =>
    c.dependencyNames.foldl (fun rel dep =>
      addPass (condNamed dep relatedTy) resources rel) rel) related

/-- Step 3 (lines 187-197). -/
def step3 (resources computes related : List AzureResource) : List AzureResource :=
  addPass (cond3 computes) resources related

/-- Step 4 (lines 199-221). -/
def step4 (resources computes related : List AzureResource) : List AzureResource :=
  computes.foldl (fun rel c =>
    if pyLower c.resource_type = S "microsoft.compute/virtualmachines" then
      addPass (cond4 c) resources rel
    else rel) related

/-- Step 5 (lines 223-232): subnets that are dependency targets of an
included network interface.  The Python loop iterates `related_resources`
while appending to it, but every appended resource has type
`virtualnetworks/subnets` and never satisfies the `networkinterfaces`
test, so iterating the entry snapshot is equivalent. -/
def step5 (resources related : List AzureResource) : List AzureResource :=
  related.foldl (fun rel nic =>
    if pyLower nic.resource_type = S "microsoft.network/networkinterfaces" then
      nic.dependencyNames.foldl (fun rel dep =>
        addPass (condNamed dep subnetTy) resources rel) rel
    else rel) related

/-- Steps 1-4 chained, from an empty related set. -/
def chain4 (resources computes : List AzureResource) : List AzureResource :=
  step4 resources computes
    (step3 resources computes (step2 resources computes (step1 resources computes [])))

/-- The full related-resource accumulation of `_filter_compute_only`. -/
def relatedPass (resources computes : List AzureResource) : List AzureResource :=
  step5 resources (chain4 resources computes)

/-- `GraphBuilder._filter_compute_only` (graph_builder.py lines 109-238). -/
def filterComputeOnly (resources : List AzureResource) : List AzureResource :=
  let computes := resources.filter fun r => pyLower r.resource_type ∈ computeResourceTypes
  if computes.isEmpty then []
  else computes ++ relatedPass resources computes

/-- `GraphBuilder._filter_resources` (graph_builder.py lines 77-107). -/
def filterResources (cfg : VisualizationConfig) (resources : List AzureResource) :
    List AzureResource :=
  let filtered := if cfg.compute_only then filterComputeOnly resources else resources
  if cfg.exclude_types.isEmpty then filtered
  else filtered.filter fun r =>
    !(cfg.exclude_types.any fun pat => matchesPattern r.resource_type pat)

/-! ### Network (association) edges (graph_builder.py lines 462-527) -/

/-- A topology association entry ({source_id, target_id, association_type,
name}). -/
structure Association where
  source_id : Str
  target_id : Str
  association_type : Str := []
  name : Str := []
deriving DecidableEq, Repr

/-- `NetworkTopology` (models.py); only the association list is read by
the graph builder. -/
structure NetworkTopology where
  associations : List Association := []
deriving DecidableEq, Repr

/-- Insertion-ordered dictionary update: an existing key keeps its
position and gets the new value; a new key is appended. -/
def dictInsert {κ α : Type} [DecidableEq κ] (k : κ) (v : α) :
    List (κ × α) → List (κ × α)
  | [] => [(k, v)]
  | (q, w) :: rest => if q = k then (k, v) :: rest else (q, w) :: dictInsert k v rest

/-- Dictionary lookup. -/
def dictGet {κ α : Type} [DecidableEq κ] (k : κ) : List (κ × α) → Option α
  | [] => none
  | (q, w) :: rest => if q = k then some w else dictGet k rest

/-- The constructed full resource id key (line 473). -/
def fullResourceId (r : AzureResource) : Str :=
  S "/subscriptions/" ++ r.subscription_id ++ S "/resourceGroups/" ++ r.resource_group ++
    S "/providers/" ++ r.resource_type ++ [ '/' ] ++ r.name

/-- The `name_typesuffix` backward-compatibility key (lines 476-477). -/
def uniqueNameKey (r : AzureResource) : Str :=
  r.name ++ [ '_' ] ++ typeSuffix r.resource_type

/-- The `resource_by_id` dictionary (lines 470-478). -/
def buildResourceById (resources : List AzureResource) : List (Str × AzureResource) :=
  resources.foldl
    (fun d r => dictInsert (uniqueNameKey r) r (dictInsert (fullResourceId r) r d)) []

/-- `GraphBuilder._extract_resource_name_from_id` (lines 1154-1171). -/
def extractResourceNameFromId (resource_id : Str) : Str :=
  if resource_id.isEmpty then []
  else
    let parts := splitChar '/' resource_id
    if parts.length ≥ 9 then parts.getLastD [] else resource_id

/-- Endpoint resolution (lines 488-509): direct dictionary hit, else the
first entry whose key starts with `name_` and whose resource has that
name. -/
def resolveEndpoint (d : List (Str × AzureResource)) (endpoint_id : Str) :
    Option AzureResource :=
  match dictGet endpoint_id d with
  | some r => some r
  | none =>
    let n := extractResourceNameFromId endpoint_id
    (d.find? fun kv => (n ++ [ '_' ]).isPrefixOf kv.1 && kv.2.name == n).map Prod.snd

/-- One association's edge, if both endpoints resolve (lines 480-527). -/
def networkEdgeOf (resources : List AzureResource) (assoc : Association) :
    Option GraphEdge :=
  let d := buildResourceById resources
  match resolveEndpoint d assoc.source_id, resolveEndpoint d assoc.target_id with
  | some s, some t =>
    some { source := createResourceNodeId s.category s.name s.resource_type
           target := createResourceNodeId t.category t.name t.resource_type
           label := assoc.association_type
           edge_type := S "association"
           attributes := [(S "style", S "solid"), (S "color", S "blue")] }
  | _, _ => none

/-- `GraphBuilder._create_network_edges`. -/
def createNetworkEdges (topology : NetworkTopology) (resources : List AzureResource) :
    List GraphEdge :=
  topology.associations.filterMap (networkEdgeOf resources)

/-! ### DNS-zone service edges (graph_builder.py lines 879-978) -/

/-- `'sep'.join(parts)`. -/
def pyJoin (sep : Str) : List Str → Str
  | [] => []
  | [x] => x
  | x :: rest => x ++ sep ++ pyJoin sep rest

/-- Python `str.split()` with no argument after a `replace('.', ' ')`:
whitespace split discarding empty segments. -/
def pySplitWs (s : Str) : List Str :=
  (splitChar ' ' s).filter fun seg => !seg.isEmpty

/-- Python `str.isalnum()`. -/
def isAlnumStr (s : Str) : Bool := !s.isEmpty && s.all Char.isAlphanum

/-- The name-match heuristic of `_create_dns_zone_connections`
(lines 895-933): returns `(name_matches, is_pattern_match)`. -/
def dnsNameMatch (dns_zone r : AzureResource) : Bool × Bool :=
  let base_name := (splitChar '.' dns_zone.name).headD []
  if r.resource_type = S "Microsoft.RedHatOpenShift/OpenShiftClusters" ∧
     (lookupProp r.properties (S "openshift_dns_domains")).isSome then
    let domains := match lookupProp r.properties (S "openshift_dns_domains") with
      | some (.pstrlist l) => l
      | _ => []
    let dns_zone_domain := pyJoin (S ".") (splitChar '.' dns_zone.name).tail
    (domains.any fun domain =>
       !dns_zone_domain.isEmpty && pyContains domain dns_zone_domain, false)
  else
    let name_matches :=
      pyContains (pyLower r.name) (pyLower base_name) ||
      (([S "hypershift", S "mgmt"].filter fun part => part.length > 3).any fun part =>
        pyContains (pyLower dns_zone.name) part && pyContains (pyLower r.name) part) ||
      (((pySplitWs (pyReplaceChar '.' ' ' (pyLower dns_zone.name))).filter fun part =>
          part.length ≥ 4 && isAlnumStr part).any fun part =>
        pyContains (pyLower r.name) part)
    (name_matches, name_matches)

/-- Infrastructure types a DNS zone may serve (lines 937-943). -/
def dnsTargetTypes : List Str :=
  [S "Microsoft.Network/virtualNetworks",
   S "Microsoft.Compute/virtualMachines",
   S "Microsoft.Network/loadBalancers",
   S "Microsoft.RedHatOpenShift/OpenShiftClusters",
   S "Microsoft.ContainerService/managedClusters"]

/-- `GraphBuilder._create_dns_zone_connections` (lines 879-978).  The
`if zone_name_parts:` guard is always true (a split yields at least one
part) and is absorbed into `headD`. -/
def createDnsZoneConnections (resources : List AzureResource) : List GraphEdge :=
  let dns_zones := resources.filter fun r =>
    r.resource_type = S "Microsoft.Network/dnszones"
  dns_zones.flatMap fun dns_zone =>
    let matching := resources.filterMap fun r =>
      let m := dnsNameMatch dns_zone r
      if r ≠ dns_zone ∧ m.1 ∧ r.resource_type ∈ dnsTargetTypes
      then some (r, m.2) else none
    matching.map fun rp =>
      { source := createResourceNodeId dns_zone.category dns_zone.name dns_zone.resource_type
        target := createResourceNodeId rp.1.category rp.1.name rp.1.resource_type
        label := if rp.2 then S "provides DNS for (derived)" else S "provides DNS for"
        edge_type := S "dns_service"
        attributes :=
          if rp.2 then
            [(S "style", S "dotted"), (S "color", S "orange"), (S "penwidth", S "2"),
             (S "weight", S "2"), (S "minlen", S "2")]
          else
            [(S "style", S "dashed"), (S "color", S "darkgreen"), (S "penwidth", S "2"),
             (S "weight", S "2"), (S "minlen", S "2")] }

/-! ### Dependency edges (graph_builder.py lines 529-877) -/

/-- The (source type, target type) → (style attributes, label) table of
`_create_dependency_edges` (lines 556-865), with the derived/explicit
fallback. -/
def depEdgeStyle (st tt : Str) (dependency_type : DependencyType)
    (description : Option Str) : List (Str × Str) × Str :=
  if st = S "Microsoft.Compute/virtualMachines" ∧ tt = S "Microsoft.Compute/disks" then
    ([(S "style", S "solid"), (S "color", S "darkgreen"), (S "penwidth", S "2"),
      (S "weight", S "10"), (S "minlen", S "1")], S "attached")
  else if st = S "Microsoft.Network/privateEndpoints" ∧
      tt = S "Microsoft.Network/networkInterfaces" then
    ([(S "style", S "solid"), (S "color", S "purple"), (S "penwidth", S "2"),
      (S "weight", S "8"), (S "minlen", S "1")], S "uses")
  else if st = S "Microsoft.Network/privateLinkServices" ∧
      tt = S "Microsoft.Network/networkInterfaces" then
    ([(S "style", S "solid"), (S "color", S "orange"), (S "penwidth", S "2"),
      (S "weight", S "8"), (S "minlen", S "1")], S "uses")
  else if st = S "Microsoft.Network/privateLinkServices" ∧
      tt = S "Microsoft.Network/loadBalancers" then
    ([(S "style", S "solid"), (S "color", S "blue"), (S "penwidth", S "2"),
      (S "weight", S "9"), (S "minlen", S "1")], S "fronts")
  else if st = S "Microsoft.Network/privateEndpoints" ∧
      tt = S "Microsoft.Network/virtualNetworks/subnets" then
    ([(S "style", S "solid"), (S "color", S "cyan"), (S "penwidth", S "2"),
      (S "weight", S "5"), (S "minlen", S "1")], S "deployed in")
  else if st = S "Microsoft.Network/networkInterfaces" ∧
      tt = S "Microsoft.Network/virtualNetworks/subnets" then
    ([(S "style", S "dashed"), (S "color", S "lime"), (S "penwidth", S "2"),
      (S "weight", S "3"), (S "minlen", S "1"), (S "constraint", S "true")], S "in")
  else if st = S "Internet/Gateway" ∧ tt = S "Microsoft.Network/publicIPAddresses" then
    ([(S "style", S "solid"), (S "color", S "yellow"), (S "penwidth", S "3"),
      (S "weight", S "10"), (S "minlen", S "1")], S "connected")
  else if st = S "Microsoft.Network/networkSecurityGroups" ∧
      tt = S "Microsoft.Network/virtualNetworks/subnets" then
    ([(S "style", S "solid"), (S "color", S "red"), (S "penwidth", S "2"),
      (S "weight", S "7"), (S "minlen", S "1")], S "secures")
  else if st = S "Microsoft.Compute/virtualMachines" ∧
      tt = S "Microsoft.Storage/storageAccounts" then
    if dependency_type = DependencyType.derived then
      ([(S "style", S "dotted"), (S "color", S "orange"), (S "penwidth", S "2"),
        (S "weight", S "3"), (S "minlen", S "1")],
       match description with
       | some d => S "derived storage (" ++ d ++ S ")"
       | none => S "derived storage")
    else
      ([(S "style", S "dashed"), (S "color", S "brown"), (S "penwidth", S "2"),
        (S "weight", S "4"), (S "minlen", S "1")], S "stores data")
  else if st = S "Microsoft.Network/virtualNetworks" ∧
      tt = S "Microsoft.Network/virtualNetworks/subnets" then
    ([(S "style", S "solid"), (S "color", S "darkblue"), (S "penwidth", S "2"),
      (S "weight", S "8"), (S "minlen", S "1")], S "contains")
  else if st = S "Microsoft.Network/virtualNetworks" ∧
      tt = S "Microsoft.Network/privateEndpoints" then
    ([(S "style", S "solid"), (S "color", S "darkblue"), (S "penwidth", S "2"),
      (S "weight", S "8"), (S "minlen", S "1")], S "contains")
  else if st = S "Microsoft.RedHatOpenShift/OpenShiftClusters" ∧
      tt = S "Microsoft.Network/virtualNetworks/subnets" then
    ([(S "style", S "solid"), (S "color", S "darkred"), (S "penwidth", S "3"),
      (S "weight", S "9"), (S "minlen", S "1")], S "deployed in")
  else if st = S "Microsoft.RedHatOpenShift/OpenShiftClusters" ∧
      tt = S "Microsoft.Network/virtualNetworks" then
    ([(S "style", S "solid"), (S "color", S "darkred"), (S "penwidth", S "3"),
      (S "weight", S "9"), (S "minlen", S "1")], S "uses network")
  else if st = S "Microsoft.RedHatOpenShift/OpenShiftClusters" ∧
      tt = S "Microsoft.Storage/storageAccounts" then
    ([(S "style", S "solid"), (S "color", S "darkred"), (S "penwidth", S "2"),
      (S "weight", S "6"), (S "minlen", S "1")], S "uses storage")
  else if st = S "Microsoft.Compute/virtualMachines" ∧
      tt = S "Microsoft.Compute/sshPublicKeys" then
    ([(S "style", S "solid"), (S "color", S "gold"), (S "penwidth", S "2"),
      (S "weight", S "7"), (S "minlen", S "1")], S "authenticates")
  else if st = S "Microsoft.Compute/galleries/images" ∧
      tt = S "Microsoft.Compute/galleries" then
    ([(S "style", S "solid"), (S "color", S "purple"), (S "penwidth", S "2"),
      (S "weight", S "8"), (S "minlen", S "1")], S "contained in")
  else if st = S "Microsoft.Compute/galleries/images/versions" ∧
      tt = S "Microsoft.Compute/galleries/images" then
    ([(S "style", S "solid"), (S "color", S "purple"), (S "penwidth", S "2"),
      (S "weight", S "8"), (S "minlen", S "1")], S "version of")
  else if st ∈ [S "Microsoft.Compute/virtualMachines",
      S "Microsoft.Compute/virtualMachineScaleSets",
      S "Microsoft.ContainerService/managedClusters",
      S "Microsoft.RedHatOpenShift/OpenShiftClusters",
      S "Microsoft.Web/sites"] ∧
      tt = S "Microsoft.ManagedIdentity/userAssignedIdentities" then
    ([(S "style", S "solid"), (S "color", S "teal"), (S "penwidth", S "2"),
      (S "weight", S "6"), (S "minlen", S "1")], S "uses identity")
  else if st = S "Microsoft.Network/privateDnsZones/virtualNetworkLinks" ∧
      tt = S "Microsoft.Network/privateDnsZones" then
    ([(S "style", S "solid"), (S "color", S "darkgreen"), (S "penwidth", S "2"),
      (S "weight", S "8"), (S "minlen", S "1")], S "links to")
  else if st = S "Microsoft.Network/privateDnsZones/virtualNetworkLinks" ∧
      tt = S "Microsoft.Network/virtualNetworks" then
    ([(S "style", S "solid"), (S "color", S "darkgreen"), (S "penwidth", S "2"),
      (S "weight", S "7"), (S "minlen", S "1")], S "connects to")
  else if st = S "Microsoft.Network/privateDnsZones" ∧
      tt = S "Microsoft.Network/virtualNetworks" then
    ([(S "style", S "dashed"), (S "color", S "darkgreen"), (S "penwidth", S "2"),
      (S "weight", S "5"), (S "minlen", S "2")], S "provides DNS for")
  else if st = S "Microsoft.Network/virtualNetworks/subnets" ∧
      tt = S "Microsoft.Network/routeTables" then
    ([(S "style", S "solid"), (S "color", S "orange"), (S "penwidth", S "2"),
      (S "weight", S "6"), (S "minlen", S "1")], S "uses routing")
  else if st = S "Microsoft.Network/dnszones" ∧
      tt = S "Microsoft.Network/loadBalancers" then
    ([(S "style", S "solid"), (S "color", S "navy"), (S "penwidth", S "2"),
      (S "weight", S "5"), (S "minlen", S "2")], S "resolves to")
  else if st = S "Microsoft.Network/dnszones" ∧
      tt = S "Microsoft.Network/publicIPAddresses" then
    ([(S "style", S "solid"), (S "color", S "navy"), (S "penwidth", S "2"),
      (S "weight", S "5"), (S "minlen", S "2")], S "resolves to")
  else if st = S "Microsoft.Network/dnszones" ∧
      tt = S "Microsoft.Compute/virtualMachines" then
    ([(S "style", S "dashed"), (S "color", S "navy"), (S "penwidth", S "2"),
      (S "weight", S "4"), (S "minlen", S "2")], S "serves API for")
  else if dependency_type = DependencyType.derived then
    ([(S "style", S "dotted"), (S "color", S "orange"), (S "penwidth", S "1")],
     match description with
     | some d => S "derived (" ++ d ++ S ")"
     | none => S "derived")
  else
    ([(S "style", S "dashed"), (S "color", S "red")], S "depends on")

/-- The `resource_by_name` dictionary lookup (`{r.name: r for r in
resources}`: the last resource with a given name wins). -/
def lookupByNameLast (resources : List AzureResource) (n : Str) : Option AzureResource :=
  resources.foldl (fun acc r => if r.name = n then some r else acc) none

/-- One dependency's edge, if its target name resolves (lines 540-877). -/
def depEdgeOf (resources : List AzureResource) (r : AzureResource) (dep : Dep) :
    Option GraphEdge :=
  match lookupByNameLast resources dep.targetName with
  | none => none
  | some dep_resource =>
    let el := depEdgeStyle r.resource_type dep_resource.resource_type dep.dtype dep.descr
    some { source := createResourceNodeId r.category r.name r.resource_type
           target := createResourceNodeId dep_resource.category dep.targetName
             dep_resource.resource_type
           label := el.2
           edge_type := S "dependency"
           attributes := el.1 }

/-- `GraphBuilder._create_dependency_edges` (lines 529-877): DNS-zone
service edges first, then one edge per resolvable dependency. -/
def createDependencyEdges (resources : List AzureResource) : List GraphEdge :=
  createDnsZoneConnections resources ++
    resources.flatMap fun r => r.dependencies.filterMap (depEdgeOf resources r)

/-! ### Redundant bidirectional edge filtering (graph_builder.py lines 980-1063) -/

/-- Python string `<=` (lexicographic on code points), as used by
`sorted([source, target])`. -/
def pyStrLe : Str → Str → Bool
  | [], _ => true
  | _ :: _, [] => false
  | a :: as, b :: bs =>
    if a.toNat < b.toNat then true
    else if b.toNat < a.toNat then false
    else pyStrLe as bs

/-- `tuple(sorted([edge.source, edge.target]))`. -/
def pairKeyOf (e : GraphEdge) : Str × Str :=
  if pyStrLe e.source e.target then (e.source, e.target) else (e.target, e.source)

/-- `GraphBuilder._is_resource_type` (lines 1053-1063). -/
def isResourceType (node : GraphNode) (resource_type : Str) : Bool :=
  pyLower node.resource_type == pyLower resource_type

/-- `next((node for node in self.nodes if node.id == id), None)`. -/
def lookupNode (nodes : List GraphNode) (node_id : Str) : Option GraphNode :=
  nodes.find? fun node => node.id == node_id

/-- The per-pair body of `_filter_redundant_edges` (lines 1003-1049). -/
def processPair (nodes : List GraphNode) (pair_edges : List GraphEdge) : List GraphEdge :=
  match pair_edges with
  | [e] => [e]
  | [edge1, edge2] =>
    match lookupNode nodes edge1.source, lookupNode nodes edge1.target,
        lookupNode nodes edge2.source, lookupNode nodes edge2.target with
    | some e1s, some e1t, some e2s, some e2t =>
      if isResourceType e1s (S "microsoft.network/networkinterfaces") &&
          isResourceType e1t (S "microsoft.compute/virtualmachines") then [edge1]
      else if isResourceType e2s (S "microsoft.network/networkinterfaces") &&
          isResourceType e2t (S "microsoft.compute/virtualmachines") then [edge2]
      else if isResourceType e1s (S "microsoft.network/networkinterfaces") &&
          isResourceType e1t (S "microsoft.network/publicipaddresses") then [edge1]
      else if isResourceType e2s (S "microsoft.network/networkinterfaces") &&
          isResourceType e2t (S "microsoft.network/publicipaddresses") then [edge2]
      else [edge1, edge2]
    | _, _, _, _ => [edge1, edge2]
  | es => es

/-- `GraphBuilder._filter_redundant_edges` (lines 980-1051): group edges
by unordered endpoint pair (insertion order), then keep at most the
preferred direction of each opposite pair. -/
def filterRedundantEdges (nodes : List GraphNode) (edges : List GraphEdge) :
    List GraphEdge :=
  let edge_pairs := edges.foldl (fun acc e => insertBucket (pairKeyOf e) e acc) []
  edge_pairs.flatMap fun kv => processPair nodes kv.2

/-! ### Cluster partitioning (graph_builder.py lines 1121-1152) -/

/-- A cluster definition as stored in `self.subgraphs`. -/
structure Subgraph where
  nodes : List Str
  label : Str
  style : Str := S "filled"
  fillcolor : Str := S "lightgray"
  fontsize : Str := S "12"
deriving DecidableEq, Repr

/-- `GraphBuilder._create_subgraphs`: one cluster per resource group
(Internet gateway resources excluded), keeping only node ids present in
the graph, and omitting clusters that end up empty. -/
def createSubgraphs (resources : List AzureResource) (graphNodeIds : List Str) :
    List (Str × Subgraph) :=
  let rg_groups := resources.foldl
    (fun acc r =>
      if pyLower r.resource_type ≠ S "internet/gateway" then
        insertBucket r.resource_group r acc
      else acc) []
  rg_groups.filterMap fun g =>
    let subgraph_nodes := (g.2.map fun r =>
        createResourceNodeId r.category r.name r.resource_type).filter
      (fun node_id => node_id ∈ graphNodeIds)
    if subgraph_nodes.isEmpty then none
    else some (S "cluster_" ++ g.1,
      { nodes := subgraph_nodes, label := S "Resource Group: " ++ g.1 })

/-! ### Pipeline assembly (graph_builder.py `build_graph`, lines 34-75) -/

/-- The result of one `build_graph` invocation: the synthesized nodes, the
edges that survive redundant-pair filtering (in the order they are added
to the graph), and the cluster map. -/
structure BuildResult where
  nodes : List GraphNode
  edges : List GraphEdge
  subgraphs : List (Str × Subgraph)
deriving DecidableEq, Repr

/-- `GraphBuilder.build_graph`: filter, group, synthesize nodes, create
association/dependency edges, filter redundant pairs, and partition into
clusters. -/
def buildGraph (cfg : VisualizationConfig) (resources : List AzureResource)
    (topology : NetworkTopology) : BuildResult :=
  let filtered := filterResources cfg resources
  let grouped := groupResources cfg.category_depth filtered
  let nodes := createResourceNodes cfg grouped
  let edges := createNetworkEdges topology filtered ++ createDependencyEdges filtered
  { nodes := nodes
    edges := filterRedundantEdges nodes edges
    subgraphs := createSubgraphs filtered (nodes.map GraphNode.id) }

/-- C9: the grouper keys each resource by category at depth 1 and by the
full type string otherwise; the keys of the resulting ordered map appear
in first-occurrence order of the key sequence, and each bucket holds its
group's members in input order. -/
theorem C9_group_resources (category_depth : Nat) (resources : List AzureResource) :
    (∀ r, groupKey category_depth r =
        if category_depth = 1 then r.category else r.resource_type) ∧
    (groupResources category_depth resources).map Prod.fst =
        firstOccurrences (resources.map (groupKey category_depth)) ∧
    ∀ k : Str, bucketGet k (groupResources category_depth resources) =
        resources.filter (fun r => groupKey category_depth r = k) :=
  ⟨fun _ => rfl, groupResources_keys _ _, fun k => groupResources_bucket _ k _⟩

/-! ### C3: end-to-end scenario -/

/-- C3: for one VM "vm1" depending on one disk "disk1", both category
Compute in group "rg1", with standard verbosity and depth 2, the pipeline
produces exactly the two nodes `compute_vm1_virtualmachines` and
`compute_disk1_disks`, one cluster for rg1 containing both ids, and one
dependency edge from the VM node to the disk node labeled "attached" with
solid style and heavy weight (weight 10, penwidth 2). -/
theorem C3_end_to_end :
    let vm1 : AzureResource :=
      { name := S "vm1", resource_type := S "Microsoft.Compute/virtualMachines",
        category := S "Compute", location := S "eastus", resource_group := S "rg1",
        subscription_id := S "sub1",
        dependencies := [Dep.ofDep (S "disk1") .explicit none] }
    let disk1 : AzureResource :=
      { name := S "disk1", resource_type := S "Microsoft.Compute/disks",
        category := S "Compute", location := S "eastus", resource_group := S "rg1",
        subscription_id := S "sub1" }
    let result := buildGraph { resource_groups := [S "rg1"] } [vm1, disk1] {}
    result.nodes.map GraphNode.id =
      [S "compute_vm1_virtualmachines", S "compute_disk1_disks"] ∧
    result.subgraphs.map Prod.fst = [S "cluster_rg1"] ∧
    (result.subgraphs.map fun g => g.2.nodes) =
      [[S "compute_vm1_virtualmachines", S "compute_disk1_disks"]] ∧
    result.edges =
      [{ source := S "compute_vm1_virtualmachines",
         target := S "compute_disk1_disks",
         label := S "attached", edge_type := S "dependency",
         attributes := [(S "style", S "solid"), (S "color", S "darkgreen"),
           (S "penwidth", S "2"), (S "weight", S "10"), (S "minlen", S "1")] }] := by
  decide

/-! ### C7: dangling reference tolerance -/

theorem foldl_lookup_skip (n : Str) :
    ∀ (l : List AzureResource) (acc : Option AzureResource),
      (∀ s ∈ l, s.name ≠ n) →
      l.foldl (fun acc r => if r.name = n then some r else acc) acc = acc
  | [], _, _ => rfl
  | x :: xs, acc, h => by
    have hx : x.name ≠ n := h x (List.mem_cons_self x xs)
    simp only [List.foldl_cons, if_neg hx]
    exact foldl_lookup_skip n xs acc fun s hs => h s (List.mem_cons_of_mem x hs)

theorem lookupByNameLast_none (l : List AzureResource) (n : Str)
    (h : ∀ s ∈ l, s.name ≠ n) : lookupByNameLast l n = none :=
  foldl_lookup_skip n l none h

/-- C7: a dependency whose target name is absent from the resource
collection produces no edge, and an association with an unresolved source
or target endpoint produces no edge; both are dropped without error. -/
theorem C7_dangling_references :
    (∀ (resources : List AzureResource) (r : AzureResource) (dep : Dep),
      (∀ s ∈ resources, s.name ≠ dep.targetName) →
      depEdgeOf resources r dep = none) ∧
    (∀ (resources : List AzureResource) (assoc : Association),
      (resolveEndpoint (buildResourceById resources) assoc.source_id = none ∨
        resolveEndpoint (buildResourceById resources) assoc.target_id = none) →
      networkEdgeOf resources assoc = none) := by
  constructor
  · intro resources r dep h
    unfold depEdgeOf
    rw [lookupByNameLast_none resources dep.targetName h]
  · intro resources assoc h
    unfold networkEdgeOf
    dsimp only
    rcases h with h | h
    · rw [h]
    · rw [h]
      cases resolveEndpoint (buildResourceById resources) assoc.source_id <;> rfl

/-- Witness for C7 at a concrete input: one resource, one dangling
dependency, one unresolvable association. -/
theorem C7_dangling_references_witness :
    depEdgeOf
      [{ name := S "vm1", resource_type := S "Microsoft.Compute/virtualMachines",
         category := S "Compute", location := S "l", resource_group := S "rg1",
         subscription_id := S "s" }]
      { name := S "vm1", resource_type := S "Microsoft.Compute/virtualMachines",
        category := S "Compute", location := S "l", resource_group := S "rg1",
        subscription_id := S "s" }
      (Dep.ofStr (S "missing")) = none ∧
    networkEdgeOf
      [{ name := S "vm1", resource_type := S "Microsoft.Compute/virtualMachines",
         category := S "Compute", location := S "l", resource_group := S "rg1",
         subscription_id := S "s" }]
      { source_id := S "/x", target_id := S "/y" } = none :=
  ⟨C7_dangling_references.1 _ _ _ (by decide),
   C7_dangling_references.2 _ _ (Or.inl (by decide))⟩

/-! ### C5: redundant bidirectional pair collapse -/

theorem foldl_insertBucket_bucketGet {κ α : Type} [DecidableEq κ] (f : α → κ)
    (l : List α) (k : κ) :
    bucketGet k (l.foldl (fun acc x => insertBucket (f x) x acc) []) =
      l.filter fun x => f x = k := by
  induction l using List.reverseRecOn with
  | nil => rfl
  | append_singleton xs x ih =>
    rw [List.foldl_append]
    simp only [List.foldl_cons, List.foldl_nil]
    rw [bucketGet_insertBucket]
    by_cases h : f x = k
    · simp [h, ih, List.filter_append]
    · simp [h, Ne.symm h, ih, List.filter_append]

theorem insertBucket_wellKeyed {κ α : Type} [DecidableEq κ] (f : α → κ) (x : α)
    (l : List (κ × List α)) (hl : ∀ kv ∈ l, ∀ e ∈ kv.2, f e = kv.1) :
    ∀ kv ∈ insertBucket (f x) x l, ∀ e ∈ kv.2, f e = kv.1 := by
  induction l with
  | nil =>
    intro kv hkv e he
    simp only [insertBucket, List.mem_singleton] at hkv
    subst hkv
    simp only [List.mem_singleton] at he
    subst he
    rfl
  | cons p rest ih =>
    intro kv hkv e he
    obtain ⟨q, xs⟩ := p
    simp only [insertBucket] at hkv
    by_cases h : q = f x
    · rw [if_pos h] at hkv
      rcases List.mem_cons.mp hkv with h1 | h1
      · subst h1
        rcases List.mem_append.mp he with h2 | h2
        · exact hl (q, xs) (List.mem_cons_self _ _) e h2
        · simp only [List.mem_singleton] at h2
          subst h2
          exact h.symm
      · exact hl kv (List.mem_cons_of_mem _ h1) e he
    · rw [if_neg h] at hkv
      rcases List.mem_cons.mp hkv with h1 | h1
      · subst h1
        exact hl (q, xs) (List.mem_cons_self _ _) e he
      · exact ih (fun kv h' => hl kv (List.mem_cons_of_mem _ h')) kv h1 e he

theorem insertBucket_keys_nodup {κ α : Type} [DecidableEq κ] (k : κ) (x : α)
    (l : List (κ × List α)) (h : (l.map Prod.fst).Nodup) :
    ((insertBucket k x l).map Prod.fst).Nodup := by
  rw [map_fst_insertBucket]
  by_cases hm : k ∈ l.map Prod.fst
  · simpa [hm] using h
  · simp [hm, List.nodup_append, h]

theorem foldl_insertBucket_wellKeyed {κ α : Type} [DecidableEq κ] (f : α → κ) :
    ∀ (l : List α) (acc : List (κ × List α)),
      (∀ kv ∈ acc, ∀ e ∈ kv.2, f e = kv.1) →
      ∀ kv ∈ l.foldl (fun acc x => insertBucket (f x) x acc) acc, ∀ e ∈ kv.2, f e = kv.1
  | [], _, hacc => hacc
  | x :: xs, acc, hacc => by
    simp only [List.foldl_cons]
    exact foldl_insertBucket_wellKeyed f xs _ (insertBucket_wellKeyed f x acc hacc)

theorem foldl_insertBucket_nodup {κ α : Type} [DecidableEq κ] (f : α → κ) :
    ∀ (l : List α) (acc : List (κ × List α)),
      (acc.map Prod.fst).Nodup →
      ((l.foldl (fun acc x => insertBucket (f x) x acc) acc).map Prod.fst).Nodup
  | [], _, hacc => hacc
  | x :: xs, acc, hacc => by
    simp only [List.foldl_cons]
    exact foldl_insertBucket_nodup f xs _ (insertBucket_keys_nodup (f x) x acc hacc)

theorem processPair_subset (nodes : List GraphNode) (es : List GraphEdge) :
    ∀ e ∈ processPair nodes es, e ∈ es := by
  intro e he
  unfold processPair at he
  split at he
  · exact he
  · split at he
    · split_ifs at he <;> simp_all
    · exact he
  · exact he

theorem filter_flatMap_processPair_nil (nodes : List GraphNode)
    (buckets : List ((Str × Str) × List GraphEdge)) (k : Str × Str)
    (hwell : ∀ kv ∈ buckets, ∀ e ∈ kv.2, pairKeyOf e = kv.1)
    (hne : ∀ kv ∈ buckets, kv.1 ≠ k) :
    (buckets.flatMap fun kv => processPair nodes kv.2).filter
      (fun e => pairKeyOf e = k) = [] := by
  induction buckets with
  | nil => rfl
  | cons kv rest ih =>
    simp only [List.flatMap_cons, List.filter_append]
    rw [List.filter_eq_nil_iff.mpr, ih (fun kv h => hwell kv (List.mem_cons_of_mem _ h))
      (fun kv h => hne kv (List.mem_cons_of_mem _ h))]
    · rfl
    · intro e he
      have hke : pairKeyOf e = kv.1 :=
        hwell kv (List.mem_cons_self _ _) e (processPair_subset nodes kv.2 e he)
      simp [hke, hne kv (List.mem_cons_self _ _)]

theorem filter_flatMap_processPair (nodes : List GraphNode)
    (buckets : List ((Str × Str) × List GraphEdge)) (k : Str × Str)
    (hkeys : (buckets.map Prod.fst).Nodup)
    (hwell : ∀ kv ∈ buckets, ∀ e ∈ kv.2, pairKeyOf e = kv.1) :
    (buckets.flatMap fun kv => processPair nodes kv.2).filter
      (fun e => pairKeyOf e = k) = processPair nodes (bucketGet k buckets) := by
  induction buckets with
  | nil => rfl
  | cons kv rest ih =>
    simp only [List.flatMap_cons, List.filter_append]
    by_cases hk : kv.1 = k
    · have hfull : (processPair nodes kv.2).filter (fun e => pairKeyOf e = k) =
          processPair nodes kv.2 := by
        apply List.filter_eq_self.mpr
        intro e he
        have hke : pairKeyOf e = kv.1 :=
          hwell kv (List.mem_cons_self _ _) e (processPair_subset nodes kv.2 e he)
        simp [hke, hk]
      have hnotin : kv.1 ∉ rest.map Prod.fst :=
        (List.nodup_cons.mp (by simpa using hkeys)).1
      have hrest : (rest.flatMap fun kv => processPair nodes kv.2).filter
          (fun e => pairKeyOf e = k) = [] := by
        apply filter_flatMap_processPair_nil nodes rest k
          (fun kv h => hwell kv (List.mem_cons_of_mem _ h))
        intro kv' h' hkk
        have hmem : kv'.1 ∈ rest.map Prod.fst := List.mem_map_of_mem Prod.fst h'
        rw [hkk, ← hk] at hmem
        exact hnotin hmem
      rw [hfull, hrest]
      obtain ⟨k1, es⟩ := kv
      have hk1 : k1 = k := hk
      simp [bucketGet, hk1]
    · have hhead : (processPair nodes kv.2).filter (fun e => pairKeyOf e = k) = [] := by
        apply List.filter_eq_nil_iff.mpr
        intro e he
        have hke : pairKeyOf e = kv.1 :=
          hwell kv (List.mem_cons_self _ _) e (processPair_subset nodes kv.2 e he)
        simp [hke, hk]
      rw [hhead]
      have hrest := ih (List.nodup_cons.mp (by simpa using hkeys)).2
        (fun kv h => hwell kv (List.mem_cons_of_mem _ h))
      obtain ⟨k1, es⟩ := kv
      have hk1 : ¬k1 = k := hk
      simp only [bucketGet, if_neg hk1, List.nil_append]
      exact hrest

/-- An edge runs in a preferred direction (NIC→VM or NIC→public-IP),
matching the type-pair rules of `_filter_redundant_edges`. -/
def preferredDirection (nodes : List GraphNode) (e : GraphEdge) : Bool :=
  match lookupNode nodes e.source, lookupNode nodes e.target with
  | some s, some t =>
    (isResourceType s (S "microsoft.network/networkinterfaces") &&
      isResourceType t (S "microsoft.compute/virtualmachines")) ||
    (isResourceType s (S "microsoft.network/networkinterfaces") &&
      isResourceType t (S "microsoft.network/publicipaddresses"))
  | _, _ => false

theorem isResourceType_excl (n : GraphNode) (a b : Str)
    (ha : isResourceType n a = true) (hb : isResourceType n b = true) :
    pyLower a = pyLower b := by
  simp only [isResourceType, beq_iff_eq] at ha hb
  rw [← ha, ← hb]

theorem isResourceType_excl_false (n : GraphNode) (a b : Str)
    (ha : isResourceType n a = true) (hne : pyLower a ≠ pyLower b) :
    isResourceType n b = false := by
  cases hb : isResourceType n b
  · rfl
  · exact absurd (isResourceType_excl n a b ha hb) hne

theorem processPair_opposite (nodes : List GraphNode) (e1 e2 : GraphEdge)
    (h21 : e2.source = e1.target) (h22 : e2.target = e1.source) :
    (preferredDirection nodes e1 = true → processPair nodes [e1, e2] = [e1]) ∧
    (preferredDirection nodes e2 = true → processPair nodes [e1, e2] = [e2]) ∧
    (preferredDirection nodes e1 = false → preferredDirection nodes e2 = false →
      processPair nodes [e1, e2] = [e1, e2]) := by
  unfold processPair preferredDirection
  simp only [h21, h22]
  cases hs : lookupNode nodes e1.source with
  | none =>
    cases ht : lookupNode nodes e1.target with
    | none => simp [hs, ht]
    | some t => simp [hs, ht]
  | some s =>
    cases ht : lookupNode nodes e1.target with
    | none => simp [hs, ht]
    | some t =>
      simp only [hs, ht]
      refine ⟨?_, ?_, ?_⟩
      · intro h
        simp only [Bool.or_eq_true, Bool.and_eq_true] at h
        rcases h with ⟨ha, hb⟩ | ⟨ha, he⟩
        · simp [ha, hb]
        · by_cases hbb : isResourceType t (S "microsoft.compute/virtualmachines") = true
          · simp [ha, hbb]
          · have hc : isResourceType t (S "microsoft.network/networkinterfaces") = false :=
              isResourceType_excl_false t _ _ he (by decide)
            simp [ha, he, hbb, hc]
      · intro h
        simp only [Bool.or_eq_true, Bool.and_eq_true] at h
        rcases h with ⟨hc, hd⟩ | ⟨hc, hf⟩
        · have hb : isResourceType t (S "microsoft.compute/virtualmachines") = false :=
            isResourceType_excl_false t _ _ hc (by decide)
          simp [hc, hd, hb]
        · have hb : isResourceType t (S "microsoft.compute/virtualmachines") = false :=
            isResourceType_excl_false t _ _ hc (by decide)
          have hd : isResourceType s (S "microsoft.compute/virtualmachines") = false :=
            isResourceType_excl_false s _ _ hf (by decide)
          have he : isResourceType t (S "microsoft.network/publicipaddresses") = false :=
            isResourceType_excl_false t _ _ hc (by decide)
          simp [hc, hf, hb, hd, he]
      · intro h1 h2
        simp only [Bool.or_eq_false_iff] at h1 h2
        simp [h1.1, h1.2, h2.1, h2.2]

/-- C5: for an unordered node pair carrying exactly two edges running in
opposite directions, the redundant-edge filter keeps only the edge whose
direction matches a preferred rule (NIC→VM or NIC→public-IP) when one
matches, and keeps both edges unchanged when neither does. -/
theorem C5_redundant_pair_collapse
    (nodes : List GraphNode) (edges : List GraphEdge) (k : Str × Str) (e1 e2 : GraphEdge)
    (hpair : edges.filter (fun e => pairKeyOf e = k) = [e1, e2])
    (h21 : e2.source = e1.target) (h22 : e2.target = e1.source) :
    (preferredDirection nodes e1 = true →
      (filterRedundantEdges nodes edges).filter (fun e => pairKeyOf e = k) = [e1]) ∧
    (preferredDirection nodes e2 = true →
      (filterRedundantEdges nodes edges).filter (fun e => pairKeyOf e = k) = [e2]) ∧
    (preferredDirection nodes e1 = false → preferredDirection nodes e2 = false →
      (filterRedundantEdges nodes edges).filter (fun e => pairKeyOf e = k) = [e1, e2]) := by
  have hrestrict : (filterRedundantEdges nodes edges).filter (fun e => pairKeyOf e = k) =
      processPair nodes [e1, e2] := by
    unfold filterRedundantEdges
    dsimp only
    rw [filter_flatMap_processPair nodes _ k
        (foldl_insertBucket_nodup pairKeyOf edges [] (by simp))
        (foldl_insertBucket_wellKeyed pairKeyOf edges [] (by simp)),
      foldl_insertBucket_bucketGet, hpair]
  rw [hrestrict]
  exact processPair_opposite nodes e1 e2 h21 h22

/-- Witness for C5: one NIC depending on one VM and the VM spuriously
depending back on the NIC; only the NIC→VM edge survives. -/
theorem C5_redundant_pair_collapse_witness :
    (filterRedundantEdges
      [{ id := S "nic", name := S "nic1", label := S "nic1", category := S "Network",
         resource_type := S "Microsoft.Network/networkInterfaces",
         attributes := .groupAttrs 0 [] (S "box") (S "filled") },
       { id := S "vm", name := S "vm1", label := S "vm1", category := S "Compute",
         resource_type := S "Microsoft.Compute/virtualMachines",
         attributes := .groupAttrs 0 [] (S "box") (S "filled") }]
      [{ source := S "nic", target := S "vm", label := S "depends on",
         edge_type := S "dependency" },
       { source := S "vm", target := S "nic", label := S "depends on",
         edge_type := S "dependency" }]).filter
      (fun e => pairKeyOf e = (S "nic", S "vm")) =
    [{ source := S "nic", target := S "vm", label := S "depends on",
       edge_type := S "dependency" }] :=
  (C5_redundant_pair_collapse
    [{ id := S "nic", name := S "nic1", label := S "nic1", category := S "Network",
       resource_type := S "Microsoft.Network/networkInterfaces",
       attributes := .groupAttrs 0 [] (S "box") (S "filled") },
     { id := S "vm", name := S "vm1", label := S "vm1", category := S "Compute",
       resource_type := S "Microsoft.Compute/virtualMachines",
       attributes := .groupAttrs 0 [] (S "box") (S "filled") }]
    [{ source := S "nic", target := S "vm", label := S "depends on",
       edge_type := S "dependency" },
     { source := S "vm", target := S "nic", label := S "depends on",
       edge_type := S "dependency" }]
    (S "nic", S "vm")
    { source := S "nic", target := S "vm", label := S "depends on",
      edge_type := S "dependency" }
    { source := S "vm", target := S "nic", label := S "depends on",
      edge_type := S "dependency" }
    (by decide) (by decide) (by decide)).1 (by decide)

/-! ### DOT generator: per-cluster priority layout
(dot_generator.py `_generate_subgraphs_with_container`, lines 395-638) -/

/-- The priority table (lines 461-495), keyed on the lower-cased resource
type; unlisted types default to 99. -/
def priorityOrder (t : Str) : Nat :=
  if t = S "microsoft.network/publicipaddresses" then 1
  else if t = S "microsoft.network/networksecuritygroups" then 2
  else if t = S "microsoft.network/networkinterfaces" then 3
  else if t = S "microsoft.network/virtualnetworks/subnets" then 4
  else if t = S "microsoft.network/virtualnetworks" then 5
  else if t = S "microsoft.compute/virtualmachines" then 6
  else if t = S "microsoft.compute/virtualmachinescalesets" then 6
  else if t = S "microsoft.containerservice/managedclusters" then 6
  else if t = S "microsoft.redhatopenshift/openshiftclusters" then 6
  else if t = S "microsoft.compute/disks" then 7
  else if t = S "microsoft.storage/storageaccounts" then 7
  else if t = S "microsoft.compute/sshpublickeys" then 8
  else if t = S "microsoft.managedidentity/userassignedidentities" then 8
  else if t = S "microsoft.compute/galleries" then 8
  else if t = S "microsoft.compute/galleries/images" then 8
  else if t = S "microsoft.compute/galleries/images/versions" then 8
  else 99

/-- Keys of the priority table, for stating the default-99 rule. -/
def priorityTableKeys : List Str :=
  [S "microsoft.network/publicipaddresses",
   S "microsoft.network/networksecuritygroups",
   S "microsoft.network/networkinterfaces",
   S "microsoft.network/virtualnetworks/subnets",
   S "microsoft.network/virtualnetworks",
   S "microsoft.compute/virtualmachines",
   S "microsoft.compute/virtualmachinescalesets",
   S "microsoft.containerservice/managedclusters",
   S "microsoft.redhatopenshift/openshiftclusters",
   S "microsoft.compute/disks",
   S "microsoft.storage/storageaccounts",
   S "microsoft.compute/sshpublickeys",
   S "microsoft.managedidentity/userassignedidentities",
   S "microsoft.compute/galleries",
   S "microsoft.compute/galleries/images",
   S "microsoft.compute/galleries/images/versions"]

/-- `priority_order.get(node_data['resource_type'].lower(), 99)`. -/
def nodePriority (n : GraphNode) : Nat := priorityOrder (pyLower n.resource_type)

/-- The cluster's node data, in cluster order, for ids present in the
graph (`if node_id in graph.nodes`). -/
def clusterData (cluster_nodes : List Str) (graph : List GraphNode) : List GraphNode :=
  cluster_nodes.filterMap (lookupNode graph)

/-- `priority_groups` (lines 497-507): dict from priority to nodes, in
first-occurrence order. -/
def priorityBuckets (cluster_nodes : List Str) (graph : List GraphNode) :
    List (Nat × List GraphNode) :=
  cluster_nodes.foldl (fun acc node_id =>
    match lookupNode graph node_id with
    | some nd => insertBucket (nodePriority nd) nd acc
    | none => acc) []

/-- `for priority in sorted(priority_groups.keys())`, each key paired with
its bucket: the priority groups of one cluster in ascending order. -/
def sortedPriorityGroups (cluster_nodes : List Str) (graph : List GraphNode) :
    List (Nat × List GraphNode) :=
  (((priorityBuckets cluster_nodes graph).map Prod.fst).insertionSort (· ≤ ·)).map
    fun p => (p, bucketGet p (priorityBuckets cluster_nodes graph))

/-- Disk / storage-account test of lines 524-527 (on the lower-cased type). -/
def isStorageType (n : GraphNode) : Bool :=
  pyLower n.resource_type = S "microsoft.compute/disks" ||
    pyLower n.resource_type = S "microsoft.storage/storageaccounts"

/-- The same-rank directives emitted per cluster (lines 509-531): for each
present priority in ascending order, the ids of its non-storage members;
an empty selection emits no directive. -/
def rankDirectives (cluster_nodes : List Str) (graph : List GraphNode) : List (List Str) :=
  (sortedPriorityGroups cluster_nodes graph).filterMap fun pg =>
    let node_ids := (pg.2.filter fun nd => !isStorageType nd).map GraphNode.id
    if node_ids.isEmpty then none else some node_ids

/-- An invisible (style=invis) layout edge. -/
structure InvisEdge where
  src : Str
  tgt : Str
  weight : Nat
  minlen : Option Nat := none
deriving DecidableEq, Repr

/-- Consecutive pairs of a list (`for i in range(len(l) - 1)`). -/
def consecutivePairs {α : Type} : List α → List (α × α)
  | [] => []
  | [_] => []
  | x :: y :: rest => (x, y) :: consecutivePairs (y :: rest)

/-- The invisible ordering edges between consecutive priority groups
(lines 533-551): weight 100, from the first node of each group to the
first node of the next. -/
def orderingEdges (cluster_nodes : List Str) (graph : List GraphNode) : List InvisEdge :=
  let reps := (sortedPriorityGroups cluster_nodes graph).map fun pg => pg.2.headI.id
  (consecutivePairs reps).map fun p => { src := p.1, tgt := p.2, weight := 100 }

/-- The VM/storage name-alignment test of lines 580-588, on the
lower-cased names. -/
def vmStorageMatch (vm_name storage_name : Str) : Bool :=
  let vm_clean := pyLower (pyStrip '_' (pyStrip '-' vm_name))
  let storage_clean := pyLower (pyStrip '_' (pyStrip '-' storage_name))
  vm_name == storage_name ||
  vm_clean == storage_clean ||
  pyContains storage_clean vm_clean ||
  vm_clean.isPrefixOf storage_clean ||
  (decide (vm_clean.length ≥ 4) && pyContains storage_clean (pyTake 4 vm_clean))

/-- The cluster's VM nodes, in ascending priority-group order (lines 562-569). -/
def vmNodesOf (cluster_nodes : List Str) (graph : List GraphNode) : List GraphNode :=
  ((sortedPriorityGroups cluster_nodes graph).flatMap Prod.snd).filter fun nd =>
    pyLower nd.resource_type = S "microsoft.compute/virtualmachines"

/-- The cluster's disk / storage-account nodes, in ascending
priority-group order (lines 562-569). -/
def storageNodesOf (cluster_nodes : List Str) (graph : List GraphNode) : List GraphNode :=
  ((sortedPriorityGroups cluster_nodes graph).flatMap Prod.snd).filter isStorageType

/-- The VM→storage invisible alignment edges (lines 571-595): weight 1000,
minlen 1, from each VM to every storage node whose name matches it. -/
def vmStorageEdges (cluster_nodes : List Str) (graph : List GraphNode) : List InvisEdge :=
  (vmNodesOf cluster_nodes graph).flatMap fun vm =>
    ((storageNodesOf cluster_nodes graph).filter fun st =>
      vmStorageMatch (pyLower vm.name) (pyLower st.name)).map fun st =>
      { src := vm.id, tgt := st.id, weight := 1000, minlen := some 1 }

/-- C4 counterexample: a cluster of two disk nodes.  Both share priority 7,
yet no same-rank directive at all is emitted (storage nodes are excluded
from rank directives), refuting "nodes sharing a priority are emitted as
one same-rank directive". -/
theorem C4_counterexample :
    rankDirectives [S "d1", S "d2"]
      [{ id := S "d1", name := S "disk1", label := S "disk1", category := S "Compute",
         resource_type := S "Microsoft.Compute/disks",
         attributes := .groupAttrs 0 [] (S "box") (S "filled") },
       { id := S "d2", name := S "disk2", label := S "disk2", category := S "Compute",
         resource_type := S "Microsoft.Compute/disks",
         attributes := .groupAttrs 0 [] (S "box") (S "filled") }] = [] ∧
    priorityOrder (S "microsoft.compute/disks") = 7 := by
  decide

/-! ### Priority-layout lemmas -/

theorem foldl_insertBucket_keys {κ α : Type} [DecidableEq κ] (f : α → κ) (l : List α) :
    (l.foldl (fun acc x => insertBucket (f x) x acc) []).map Prod.fst =
      firstOccurrences (l.map f) := by
  induction l using List.reverseRecOn with
  | nil => rfl
  | append_singleton xs x ih =>
    rw [List.foldl_append]
    simp only [List.foldl_cons, List.foldl_nil]
    rw [map_fst_insertBucket, ih, List.map_append]
    simp only [List.map_cons, List.map_nil]
    rw [firstOccurrences_append_singleton]
    simp [mem_firstOccurrences]

theorem firstOccurrences_nodup {α : Type} [DecidableEq α] (l : List α) :
    (firstOccurrences l).Nodup := by
  induction l with
  | nil => simp [firstOccurrences]
  | cons x xs ih =>
    simp only [firstOccurrences]
    refine List.nodup_cons.mpr ⟨?_, ih.filter _⟩
    simp [List.mem_filter]

theorem foldl_lookup_filterMap (g : List GraphNode) :
    ∀ (cn : List Str) (acc : List (Nat × List GraphNode)),
      cn.foldl (fun acc node_id =>
        match lookupNode g node_id with
        | some nd => insertBucket (nodePriority nd) nd acc
        | none => acc) acc =
      (cn.filterMap (lookupNode g)).foldl
        (fun acc nd => insertBucket (nodePriority nd) nd acc) acc
  | [], _ => rfl
  | node_id :: rest, acc => by
    simp only [List.foldl_cons, List.filterMap_cons]
    cases h : lookupNode g node_id with
    | none =>
      simp only [h]
      exact foldl_lookup_filterMap g rest acc
    | some nd =>
      simp only [h, List.foldl_cons]
      exact foldl_lookup_filterMap g rest _

theorem priorityBuckets_eq (cn : List Str) (g : List GraphNode) :
    priorityBuckets cn g =
      (clusterData cn g).foldl (fun acc nd => insertBucket (nodePriority nd) nd acc) [] :=
  foldl_lookup_filterMap g cn []

theorem bucketGet_priorityBuckets (cn : List Str) (g : List GraphNode) (p : Nat) :
    bucketGet p (priorityBuckets cn g) =
      (clusterData cn g).filter fun nd => nodePriority nd = p := by
  rw [priorityBuckets_eq]
  exact foldl_insertBucket_bucketGet nodePriority _ p

theorem priorityBuckets_keys (cn : List Str) (g : List GraphNode) :
    (priorityBuckets cn g).map Prod.fst =
      firstOccurrences ((clusterData cn g).map nodePriority) := by
  rw [priorityBuckets_eq]
  exact foldl_insertBucket_keys nodePriority _

theorem mem_sorted_keys_iff (cn : List Str) (g : List GraphNode) (p : Nat) :
    p ∈ ((priorityBuckets cn g).map Prod.fst).insertionSort (· ≤ ·) ↔
      p ∈ (clusterData cn g).map nodePriority := by
  rw [(List.perm_insertionSort _ _).mem_iff, priorityBuckets_keys, mem_firstOccurrences]

theorem sortedPriorityGroups_mem (cn : List Str) (g : List GraphNode)
    (pg : Nat × List GraphNode) (h : pg ∈ sortedPriorityGroups cn g) :
    pg.2 = (clusterData cn g).filter (fun nd => nodePriority nd = pg.1) ∧
      pg.1 ∈ (clusterData cn g).map nodePriority := by
  unfold sortedPriorityGroups at h
  simp only [List.mem_map] at h
  obtain ⟨p, hp, hpg⟩ := h
  subst hpg
  exact ⟨bucketGet_priorityBuckets cn g p, (mem_sorted_keys_iff cn g p).mp hp⟩

theorem mem_sortedPriorityGroups (cn : List Str) (g : List GraphNode) (p : Nat)
    (hp : p ∈ (clusterData cn g).map nodePriority) :
    (p, (clusterData cn g).filter fun nd => nodePriority nd = p) ∈
      sortedPriorityGroups cn g := by
  unfold sortedPriorityGroups
  rw [List.mem_map]
  exact ⟨p, (mem_sorted_keys_iff cn g p).mpr hp, by rw [bucketGet_priorityBuckets]⟩

theorem sorted_nodup_strict (l : List Nat) (hs : l.Sorted (· ≤ ·)) (hn : l.Nodup) :
    l.Pairwise (· < ·) :=
  (hs.and hn).imp fun h => lt_of_le_of_ne h.1 h.2

theorem sortedPriorityGroups_keys_strict (cn : List Str) (g : List GraphNode) :
    ((sortedPriorityGroups cn g).map Prod.fst).Pairwise (· < ·) := by
  have hmap : (sortedPriorityGroups cn g).map Prod.fst =
      ((priorityBuckets cn g).map Prod.fst).insertionSort (· ≤ ·) := by
    unfold sortedPriorityGroups
    have hcomp : (Prod.fst ∘ fun p : Nat => (p, bucketGet p (priorityBuckets cn g))) = id :=
      rfl
    rw [List.map_map, hcomp, List.map_id]
  rw [hmap]
  apply sorted_nodup_strict
  · exact List.sorted_insertionSort _ _
  · refine ((List.perm_insertionSort _ _).nodup_iff).mpr ?_
    rw [priorityBuckets_keys]
    exact firstOccurrences_nodup _

theorem headI_mem {α : Type} [Inhabited α] (l : List α) (h : l ≠ []) : l.headI ∈ l := by
  cases l with
  | nil => exact absurd rfl h
  | cons x xs => exact List.mem_cons_self x xs

theorem consecutivePairs_map {α β : Type} (f : α → β) :
    ∀ l : List α,
      consecutivePairs (l.map f) = (consecutivePairs l).map fun p => (f p.1, f p.2)
  | [] => rfl
  | [_] => rfl
  | x :: y :: rest => by
    simp only [List.map_cons, consecutivePairs]
    have h := consecutivePairs_map f (y :: rest)
    simp only [List.map_cons] at h
    rw [h]

/-- C4 (amended): within every cluster, nodes are grouped by the fixed
priority table (public IP 1, NSG 2, NIC 3, subnet 4, vnet 5, compute 6,
storage/disks 7, identity/SSH/gallery 8, unlisted 99); nodes sharing a
priority are emitted as one same-rank directive EXCEPT disk and
storage-account nodes, which are excluded from rank directives; priority
groups are strictly ascending, and exactly one invisible weight-100 edge
joins each consecutive pair of present groups, from a member of the lower
group to a member of the next. -/
theorem C4_priority_layout_amended (cluster_nodes : List Str) (graph : List GraphNode) :
    (priorityOrder (S "microsoft.network/publicipaddresses") = 1 ∧
     priorityOrder (S "microsoft.network/networksecuritygroups") = 2 ∧
     priorityOrder (S "microsoft.network/networkinterfaces") = 3 ∧
     priorityOrder (S "microsoft.network/virtualnetworks/subnets") = 4 ∧
     priorityOrder (S "microsoft.network/virtualnetworks") = 5 ∧
     priorityOrder (S "microsoft.compute/virtualmachines") = 6 ∧
     priorityOrder (S "microsoft.compute/disks") = 7 ∧
     priorityOrder (S "microsoft.storage/storageaccounts") = 7 ∧
     priorityOrder (S "microsoft.compute/sshpublickeys") = 8 ∧
     ∀ t, t ∉ priorityTableKeys → priorityOrder t = 99) ∧
    (∀ n1 ∈ clusterData cluster_nodes graph, ∀ n2 ∈ clusterData cluster_nodes graph,
      nodePriority n1 = nodePriority n2 →
      isStorageType n1 = false → isStorageType n2 = false →
      ∃ d ∈ rankDirectives cluster_nodes graph, n1.id ∈ d ∧ n2.id ∈ d) ∧
    ((sortedPriorityGroups cluster_nodes graph).map Prod.fst).Pairwise (· < ·) ∧
    orderingEdges cluster_nodes graph =
      ((consecutivePairs (sortedPriorityGroups cluster_nodes graph)).map fun pq =>
        { src := pq.1.2.headI.id, tgt := pq.2.2.headI.id, weight := 100 }) ∧
    (∀ pg ∈ sortedPriorityGroups cluster_nodes graph,
      pg.2 ≠ [] ∧ ∀ n ∈ pg.2, nodePriority n = pg.1) := by
  refine ⟨⟨by decide, by decide, by decide, by decide, by decide, by decide, by decide,
    by decide, by decide, ?_⟩, ?_, sortedPriorityGroups_keys_strict _ _, ?_, ?_⟩
  · intro t ht
    simp only [priorityTableKeys, List.mem_cons, List.not_mem_nil, or_false, not_or] at ht
    obtain ⟨h1, h2, h3, h4, h5, h6, h7, h8, h9, h10, h11, h12, h13, h14, h15, h16⟩ := ht
    simp [priorityOrder, h1, h2, h3, h4, h5, h6, h7, h8, h9, h10, h11, h12, h13, h14,
      h15, h16]
  · intro n1 h1 n2 h2 hp hs1 hs2
    have hpmem : nodePriority n1 ∈ (clusterData cluster_nodes graph).map nodePriority :=
      List.mem_map_of_mem nodePriority h1
    have hgrp := mem_sortedPriorityGroups cluster_nodes graph (nodePriority n1) hpmem
    have hn1 : n1 ∈ (clusterData cluster_nodes graph).filter
        (fun nd => nodePriority nd = nodePriority n1) :=
      List.mem_filter.mpr ⟨h1, by simp⟩
    have hn2 : n2 ∈ (clusterData cluster_nodes graph).filter
        (fun nd => nodePriority nd = nodePriority n1) :=
      List.mem_filter.mpr ⟨h2, by simp [← hp]⟩
    refine ⟨(((clusterData cluster_nodes graph).filter
        (fun nd => nodePriority nd = nodePriority n1)).filter
          (fun nd => !isStorageType nd)).map GraphNode.id, ?_, ?_, ?_⟩
    · unfold rankDirectives
      rw [List.mem_filterMap]
      refine ⟨_, hgrp, ?_⟩
      dsimp only
      rw [if_neg]
      simp only [List.isEmpty_iff]
      apply List.ne_nil_of_mem
      exact List.mem_map_of_mem GraphNode.id (List.mem_filter.mpr ⟨hn1, by simp [hs1]⟩)
    · exact List.mem_map_of_mem GraphNode.id (List.mem_filter.mpr ⟨hn1, by simp [hs1]⟩)
    · exact List.mem_map_of_mem GraphNode.id (List.mem_filter.mpr ⟨hn2, by simp [hs2]⟩)
  · unfold orderingEdges
    dsimp only
    rw [consecutivePairs_map, List.map_map]
    rfl
  · intro pg hpg
    obtain ⟨hshape, hpmem⟩ := sortedPriorityGroups_mem _ _ pg hpg
    constructor
    · rw [hshape]
      obtain ⟨n, hn, hnp⟩ := List.mem_map.mp hpmem
      exact List.ne_nil_of_mem (List.mem_filter.mpr ⟨hn, by simp [hnp]⟩)
    · intro n hn
      rw [hshape] at hn
      simpa using (List.mem_filter.mp hn).2

/-- A sample NIC node used to instantiate the C4 layout theorem. -/
def nicNodeA : GraphNode :=
  { id := S "n1", name := S "nicA", label := S "nicA", category := S "Network",
    resource_type := S "Microsoft.Network/networkInterfaces",
    attributes := .groupAttrs 0 [] (S "box") (S "filled") }

/-- A second sample NIC node used to instantiate the C4 layout theorem. -/
def nicNodeB : GraphNode :=
  { id := S "n2", name := S "nicB", label := S "nicB", category := S "Network",
    resource_type := S "Microsoft.Network/networkInterfaces",
    attributes := .groupAttrs 0 [] (S "box") (S "filled") }

/-- Witness for C4: a cluster of two NIC nodes (both priority 3) shares
one same-rank directive containing both ids. -/
theorem C4_priority_layout_amended_witness :
    ∃ d ∈ rankDirectives [S "n1", S "n2"] [nicNodeA, nicNodeB],
      nicNodeA.id ∈ d ∧ nicNodeB.id ∈ d :=
  (C4_priority_layout_amended [S "n1", S "n2"] [nicNodeA, nicNodeB]).2.1
    nicNodeA (by decide) nicNodeB (by decide) (by decide) (by decide) (by decide)

/-- C10: disk and storage-account nodes never appear in any same-rank
directive (given distinct node ids within the cluster), and every storage
node whose normalised (lower-cased, hyphen/underscore-stripped) name
extends a VM node's normalised name as a prefix is linked from that VM by
an invisible minimum-length edge of weight 1000. -/
theorem C10_storage_alignment (cluster_nodes : List Str) (graph : List GraphNode) :
    (∀ d ∈ rankDirectives cluster_nodes graph,
      ∀ n ∈ clusterData cluster_nodes graph, isStorageType n = true →
      ((clusterData cluster_nodes graph).map GraphNode.id).Nodup →
      n.id ∉ d) ∧
    (∀ vm ∈ clusterData cluster_nodes graph, ∀ st ∈ clusterData cluster_nodes graph,
      pyLower vm.resource_type = S "microsoft.compute/virtualmachines" →
      isStorageType st = true →
      (pyLower (pyStrip '_' (pyStrip '-' (pyLower vm.name)))).isPrefixOf
        (pyLower (pyStrip '_' (pyStrip '-' (pyLower st.name)))) = true →
      ({ src := vm.id, tgt := st.id, weight := 1000, minlen := some 1 } : InvisEdge) ∈
        vmStorageEdges cluster_nodes graph) := by
  constructor
  · intro d hd n hn hstor hnodup hmem
    unfold rankDirectives at hd
    rw [List.mem_filterMap] at hd
    obtain ⟨pg, hpg, heq⟩ := hd
    dsimp only at heq
    split at heq
    · exact Option.noConfusion heq
    · injection heq with heq
      subst heq
      rw [List.mem_map] at hmem
      obtain ⟨m, hmf, hmid⟩ := hmem
      have hmg : m ∈ pg.2 := (List.mem_filter.mp hmf).1
      have hmns : isStorageType m = false := by
        have := (List.mem_filter.mp hmf).2
        simpa using this
      have hmcd : m ∈ clusterData cluster_nodes graph := by
        have hshape := (sortedPriorityGroups_mem _ _ pg hpg).1
        rw [hshape] at hmg
        exact (List.mem_filter.mp hmg).1
      have : m = n := List.inj_on_of_nodup_map hnodup hmcd hn hmid
      rw [this, hstor] at hmns
      exact Bool.noConfusion hmns
  · intro vm hvm st hst htype hstor hpre
    have hvmmem : vm ∈ vmNodesOf cluster_nodes graph := by
      unfold vmNodesOf
      rw [List.mem_filter]
      refine ⟨?_, by simp [htype]⟩
      rw [List.mem_flatMap]
      refine ⟨(nodePriority vm, (clusterData cluster_nodes graph).filter
        (fun nd => nodePriority nd = nodePriority vm)),
        mem_sortedPriorityGroups _ _ _ (List.mem_map_of_mem nodePriority hvm), ?_⟩
      exact List.mem_filter.mpr ⟨hvm, by simp⟩
    have hstmem : st ∈ storageNodesOf cluster_nodes graph := by
      unfold storageNodesOf
      rw [List.mem_filter]
      refine ⟨?_, hstor⟩
      rw [List.mem_flatMap]
      refine ⟨(nodePriority st, (clusterData cluster_nodes graph).filter
        (fun nd => nodePriority nd = nodePriority st)),
        mem_sortedPriorityGroups _ _ _ (List.mem_map_of_mem nodePriority hst), ?_⟩
      exact List.mem_filter.mpr ⟨hst, by simp⟩
    unfold vmStorageEdges
    rw [List.mem_flatMap]
    refine ⟨vm, hvmmem, ?_⟩
    apply List.mem_map_of_mem
    apply List.mem_filter.mpr
    refine ⟨hstmem, ?_⟩
    simp [vmStorageMatch, hpre]

/-- A sample VM node used to instantiate the C10 alignment theorem. -/
def vmNodeSample : GraphNode :=
  { id := S "v", name := S "vm1", label := S "vm1", category := S "Compute",
    resource_type := S "Microsoft.Compute/virtualMachines",
    attributes := .groupAttrs 0 [] (S "box") (S "filled") }

/-- A sample disk node used to instantiate the C10 alignment theorem. -/
def diskNodeSample : GraphNode :=
  { id := S "d", name := S "vm1-disk0", label := S "vm1-disk0", category := S "Compute",
    resource_type := S "Microsoft.Compute/disks",
    attributes := .groupAttrs 0 [] (S "box") (S "filled") }

/-- Witness for C10: a VM "vm1" and a disk "vm1-disk0" in one cluster
receive the invisible weight-1000 alignment edge. -/
theorem C10_storage_alignment_witness :
    ({ src := vmNodeSample.id, tgt := diskNodeSample.id, weight := 1000,
       minlen := some 1 } : InvisEdge) ∈
      vmStorageEdges [S "v", S "d"] [vmNodeSample, diskNodeSample] :=
  (C10_storage_alignment [S "v", S "d"] [vmNodeSample, diskNodeSample]).2
    vmNodeSample (by decide) diskNodeSample (by decide) (by decide) (by decide) (by decide)

/-! ### DOT generator: document text assembly (dot_generator.py lines 13-291
and 640-1228) -/

/-- `ThemeConfig` (models.py lines 140-149). -/
structure ThemeConfig where
  background_color : Str
  node_color : Str
  edge_color : Str
  font_color : Str
  font_name : Str := S "Arial"
  font_size : Str := S "10"
deriving DecidableEq, Repr

/-- The `THEMES` table (dot_generator.py lines 17-39). -/
def themeOf (t : Theme) : ThemeConfig :=
  match t with
  | .light =>
    { background_color := S "white", node_color := S "lightblue",
      edge_color := S "black", font_color := S "black" }
  | .dark =>
    { background_color := S "black", node_color := S "darkgray",
      edge_color := S "white", font_color := S "black" }
  | .neon =>
    { background_color := S "black", node_color := S "cyan",
      edge_color := S "magenta", font_color := S "yellow" }

/-- Python `str.strip()`: remove leading and trailing whitespace. -/
def pyStripStr (s : Str) : Str :=
  ((s.dropWhile Char.isWhitespace).reverse.dropWhile Char.isWhitespace).reverse

/-- `s.replace('"', '\\"')` for DOT label escaping. -/
def escapeQuotes (s : Str) : Str :=
  s.flatMap fun c => if c = '"' then [ '\\', '"' ] else [c]

/-- Python `str.replace(old, new)` for a non-empty multi-character
pattern, replacing every occurrence left to right. -/
def pyReplaceStrAll (old new : Str) (s : Str) : Str :=
  match s with
  | [] => []
  | c :: rest =>
    if h : old ≠ [] ∧ old.isPrefixOf (c :: rest) then
      new ++ pyReplaceStrAll old new ((c :: rest).drop old.length)
    else c :: pyReplaceStrAll old new rest
termination_by s.length
decreasing_by
  · simp only [List.length_drop, List.length_cons]
    have hpos : 0 < old.length := List.length_pos.mpr h.1
    omega
  · simp only [List.length_cons]
    omega

/-- `DOTGenerator._indent_content` (lines 153-176). -/
def indentContent (content : Str) (spaces : Nat) : Str :=
  if (pyStripStr content).isEmpty then content
  else
    pyJoin (S "\n") ((splitChar '\n' content).map fun line =>
      if (pyStripStr line).isEmpty then line
      else List.replicate spaces ' ' ++ line)

/-- A networkx node-attribute value: quoted string or raw (unquoted)
representation, as emitted by the custom-attribute loop of
`_format_node` (lines 1092-1108). -/
inductive AttrVal
  | astr (s : Str)
  | araw (s : Str)
deriving DecidableEq, Repr

/-- The attribute dictionary stored on a networkx graph node by
`_populate_networkx_graph` (graph_builder.py lines 1065-1110): label,
name, category, resource_type, then the scalar node attributes in
insertion order.  The `prop_*` essential-property passthrough is not
modelled (no claim depends on it). -/
def nxNodeData (n : GraphNode) : List (Str × AttrVal) :=
  [(S "label", .astr n.label), (S "name", .astr n.name),
   (S "category", .astr n.category), (S "resource_type", .astr n.resource_type)] ++
  (match n.attributes with
   | .resourceAttrs rg loc rank shape style ps _props =>
     [(S "resource_group", .astr rg), (S "location", .astr loc),
      (S "ranking", .araw (Nat.repr rank).data), (S "shape", .astr shape),
      (S "style", .astr style)] ++
     (match ps with
      | some (.pstr s) => [(S "power_state", .astr s)]
      | some (.pint k) => [(S "power_state", .araw (Int.repr k).data)]
      | some (.pbool b) =>
        [(S "power_state", .araw (if b then S "True" else S "False"))]
      | _ => [])
   | .groupAttrs count _resources shape style =>
     [(S "resource_count", .araw (Nat.repr count).data), (S "shape", .astr shape),
      (S "style", .astr style)])

/-- `DOTGenerator._format_node` (lines 686-1111), no-icon fallback branch:
the icon-lookup collaborator is external to the core and modelled as
"no icon available", for which the emitter must still produce a plain
boxed declaration (lines 1080-1090), followed by the custom-attribute
loop (lines 1092-1111). -/
def formatNodeLine (cfg : VisualizationConfig) (n : GraphNode) : Str :=
  let theme := themeOf cfg.theme
  let base : List Str :=
    [S "label=\"" ++ escapeQuotes n.name ++ S "\"",
     S "shape=\"box\"", S "style=\"filled\"",
     S "fillcolor=\"" ++ theme.node_color ++ S "\"",
     S "fontname=\"" ++ theme.font_name ++ S "\"",
     S "fontcolor=\"" ++ theme.font_color ++ S "\""]
  let excluded : List Str :=
    [S "label", S "shape", S "style", S "name", S "category", S "resource_type",
     S "fillcolor", S "fontname", S "fontcolor"]
  let extra := (nxNodeData n).filterMap fun kv =>
    if kv.1 ∈ excluded then none
    else some (match kv.2 with
      | .astr v => kv.1 ++ S "=\"" ++ v ++ S "\""
      | .araw v => kv.1 ++ [ '=' ] ++ v)
  S "\"" ++ n.id ++ S "\" [" ++ pyJoin (S ", ") (base ++ extra) ++ S "];"

/-- `DOTGenerator._format_edge` (lines 1130-1171). -/
def formatEdge (e : GraphEdge) : Str :=
  let label_attrs : List Str :=
    if e.label.isEmpty then []
    else [S "label=\"" ++ escapeQuotes e.label ++ S "\""]
  let style_attrs : List Str :=
    if e.edge_type = S "dependency" then [S "style=\"dashed\"", S "color=\"red\""]
    else [S "style=\"solid\""]
  let custom_attrs := (e.attributes.filter fun kv =>
      kv.1 ≠ S "label" ∧ kv.1 ≠ S "edge_type").map fun kv =>
    kv.1 ++ S "=\"" ++ kv.2 ++ S "\""
  let attrs := label_attrs ++ style_attrs ++ custom_attrs
  S "\"" ++ e.source ++ S "\" -> \"" ++ e.target ++ S "\"" ++
    (if attrs.isEmpty then [] else S " [" ++ pyJoin (S ", ") attrs ++ S "]") ++ S ";"

/-- `DOTGenerator._generate_header` (lines 177-187): the computed
rankdir/splines locals are unused; a constant header is returned. -/
def generateHeader (_cfg : VisualizationConfig) : Str :=
  S "digraph AzureTopology \x7b"

/-- `DOTGenerator._generate_graph_attributes` (lines 189-214). -/
def generateGraphAttributes (cfg : VisualizationConfig) : Str :=
  let theme := themeOf cfg.theme
  S "    // Graph attributes\n    rankdir=\"LR\";\n    splines=\"" ++ cfg.splines.val ++
  S "\";\n    bgcolor=\"" ++ theme.background_color ++
  S "\";\n    fontname=\"" ++ theme.font_name ++
  S "\";\n    fontsize=\"" ++ theme.font_size ++
  S "\";\n    fontcolor=\"" ++ theme.font_color ++
  S "\";\n    dpi=\"300\";\n    concentrate=false;\n    compound=true;\n" ++
  S "    newrank=true;\n    ordering=\"out\";\n    esep=\"+15\";\n    sep=\"+10\";\n" ++
  S "    nodesep=\"0.5\";\n    ranksep=\"0.4\";\n    size=\"12,8!\";\n" ++
  S "    ratio=\"compress\";\n    pack=\"true\";\n    packmode=\"clust\";"

/-- `DOTGenerator._generate_node_defaults` (lines 216-230). -/
def generateNodeDefaults (cfg : VisualizationConfig) : Str :=
  let theme := themeOf cfg.theme
  S "    // Default node attributes\n    node [\n        shape=box,\n        style=filled,\n" ++
  S "        fillcolor=\"" ++ theme.node_color ++
  S "\",\n        fontname=\"" ++ theme.font_name ++
  S "\",\n        fontsize=\"" ++ theme.font_size ++
  S "\",\n        fontcolor=\"" ++ theme.font_color ++
  S "\",\n        color=\"" ++ theme.edge_color ++
  S "\",\n        height=\"1.2\",\n        width=\"1.8\",\n        margin=\"0.1\"\n    ];"

/-- `DOTGenerator._generate_edge_defaults` (lines 231-239). -/
def generateEdgeDefaults (cfg : VisualizationConfig) : Str :=
  let theme := themeOf cfg.theme
  S "    // Default edge attributes\n    edge [\n        fontname=\"" ++ theme.font_name ++
  S "\",\n        fontsize=\"8\",\n        fontcolor=\"" ++ theme.font_color ++
  S "\",\n        color=\"" ++ theme.edge_color ++ S "\"\n    ];"

/-- `DOTGenerator._generate_subscription_title` (lines 241-291); a `None`
or empty name/id pair produces the empty string. -/
def generateSubscriptionTitle (cfg : VisualizationConfig)
    (subscription_name subscription_id : Option Str) : Str :=
  let truthy : Option Str → Bool := fun o => match o with
    | none => false
    | some s => !s.isEmpty
  if !truthy subscription_name && !truthy subscription_id then []
  else
    let theme := themeOf cfg.theme
    let title_text :=
      match truthy subscription_name, truthy subscription_id with
      | true, true =>
        S "Subscription Name: " ++ subscription_name.getD [] ++
          S "\\nSubscription ID: " ++ subscription_id.getD []
      | true, false => S "Subscription Name: " ++ subscription_name.getD []
      | _, _ => S "Subscription ID: " ++ subscription_id.getD []
    let title_text := escapeQuotes title_text
    S "    // Subscription Title (compact, minimal padding, background color)\n" ++
    S "    \"subscription_title\" [\n        label=\"" ++ title_text ++
    S "\",\n        shape=\"box\",\n        style=\"filled\",\n        fillcolor=\"" ++
    theme.background_color ++
    S "\",\n        fontname=\"" ++ theme.font_name ++
    S "\",\n        fontsize=\"10\",\n        fontcolor=\"" ++ theme.font_color ++
    S "\",\n        color=\"" ++ theme.background_color ++
    S "\",\n        penwidth=\"0\",\n        height=\"0.4\",\n        width=\"4.0\",\n" ++
    S "        margin=\"0.02\",\n        labeljust=\"l\",\n        labelloc=\"t\"\n    ];\n\n"

/-- `DOTGenerator._generate_edges` (lines 1113-1128). -/
def generateEdges (graph_edges : List GraphEdge) : Str :=
  pyJoin (S "\n") (graph_edges.map fun e => S "    " ++ formatEdge e)

/-- `DOTGenerator._generate_legend` (lines 1173-1228). -/
def generateLegend (cfg : VisualizationConfig) (graph_edges : List GraphEdge) : Str :=
  let has_associations := graph_edges.any fun e => e.edge_type = S "association"
  let has_dependencies := graph_edges.any fun e => e.edge_type = S "dependency"
  if !has_associations && !has_dependencies then []
  else
    let theme := themeOf cfg.theme
    let legend_fillcolor := if cfg.theme = Theme.light then S "white" else S "gray"
    pyJoin (S "\n")
      ([S "    // Legend",
        S "    subgraph \"cluster_legend\" \x7b",
        S "        label=\"Legend\";",
        S "        style=\"filled\";",
        S "        fillcolor=\"" ++ legend_fillcolor ++ S "\";",
        S "        fontcolor=\"" ++ theme.font_color ++ S "\";",
        []] ++
      (if has_associations then
        [S "        \"legend_assoc_src\" [label=\"Resource A\", shape=box];",
         S "        \"legend_assoc_dst\" [label=\"Resource B\", shape=box];",
         S "        \"legend_assoc_src\" -> \"legend_assoc_dst\" [label=\"Associated\", style=solid];",
         []]
       else []) ++
      (if has_dependencies then
        [S "        \"legend_dep_src\" [label=\"Resource C\", shape=box];",
         S "        \"legend_dep_dst\" [label=\"Resource D\", shape=box];",
         S "        \"legend_dep_src\" -> \"legend_dep_dst\" [label=\"Depends On\", style=dashed, color=red];"]
       else []) ++
      [S "    \x7d"])

/-- `DOTGenerator._generate_standalone_nodes` (lines 640-685). -/
def generateStandaloneNodes (cfg : VisualizationConfig) (graph : List GraphNode)
    (subgraphs : List (Str × Subgraph)) : Str :=
  let subgraph_nodes := subgraphs.flatMap fun sg => sg.2.nodes
  let standalone := graph.filter fun n => n.id ∉ subgraph_nodes
  let internet_nodes := standalone.filter fun n => n.resource_type = S "Internet/Gateway"
  let other_nodes := standalone.filter fun n => n.resource_type ≠ S "Internet/Gateway"
  let internet_lines := internet_nodes.map fun n => S "    " ++ formatNodeLine cfg n
  let rank_lines :=
    if internet_nodes.isEmpty then []
    else
      [S "    // Position Internet nodes at far left (below subscription)",
       S "    \x7brank=same; " ++
         pyJoin (S "; ") (internet_nodes.map fun n => S "\"" ++ n.id ++ S "\"") ++
         S ";\x7d"]
  pyJoin (S "\n")
    (internet_lines ++ rank_lines ++ other_nodes.map fun n => S "    " ++ formatNodeLine cfg n)

/-- One cluster's block inside the master container (lines 422-597):
external title node, cluster block with priority-ordered node
declarations, same-rank directives, invisible ordering edges, and
VM-storage alignment edges. -/
def renderCluster (cfg : VisualizationConfig) (graph : List GraphNode)
    (sg_name : Str) (sg : Subgraph) : List Str :=
  let theme := themeOf cfg.theme
  let clean := pyReplaceStrAll (S "cluster_") [] sg_name
  let groups := sortedPriorityGroups sg.nodes graph
  [S "        // Resource group title (external, left-justified)",
   S "        \"title_" ++ clean ++ S "\" [",
   S "            label=\"" ++ sg.label ++ S "\",",
   S "            shape=\"plaintext\",",
   S "            fontsize=\"10\",",
   S "            fontcolor=\"" ++ theme.font_color ++ S "\",",
   S "            height=\"0.3\",",
   S "            width=\"3.0\",",
   S "            margin=\"0\",",
   S "            labeljust=\"l\"",
   S "        ];",
   [],
   S "        subgraph \"cluster_" ++ clean ++ S "\" \x7b",
   S "            label=\"\";",
   S "            style=\"" ++ sg.style ++ S "\";",
   S "            fillcolor=\"" ++ sg.fillcolor ++ S "\";",
   S "            fontcolor=\"" ++ theme.font_color ++ S "\";",
   S "            rankdir=\"LR\";",
   S "            margin=\"1\";",
   []] ++
  (groups.flatMap fun pg =>
    [S "            // Priority " ++ (Nat.repr pg.1).data ++ S " resources"] ++
    (pg.2.map fun nd => S "            " ++ formatNodeLine cfg nd) ++
    (let node_ids := (pg.2.filter fun nd => !isStorageType nd).map GraphNode.id
     if node_ids.isEmpty then []
     else [S "            \x7brank=same; " ++
       pyJoin (S "; ") (node_ids.map fun i => S "\"" ++ i ++ S "\"") ++ S ";\x7d"]) ++
    [[]]) ++
  (if groups.length > 1 then
    [[], S "            // Invisible ordering edges to force left-to-right layout"] ++
    (orderingEdges sg.nodes graph).map fun e =>
      S "            \"" ++ e.src ++ S "\" -> \"" ++ e.tgt ++ S "\" [style=invis, weight=100];"
   else []) ++
  ([[], S "            // VM-Storage inline horizontal placement"] ++
   (vmStorageEdges sg.nodes graph).map fun e =>
     S "            \"" ++ e.src ++ S "\" -> \"" ++ e.tgt ++
       S "\" [style=invis, weight=1000, minlen=1];") ++
  [S "        \x7d", []]

/-- The external title-positioning block (lines 599-634). -/
def titlePositioning (graph : List GraphNode)
    (subgraphs : List (Str × Subgraph)) : List Str :=
  let title_positioning := subgraphs.filterMap fun sgp =>
    if sgp.2.nodes.isEmpty then none
    else
      match (sgp.2.nodes.filterMap (lookupNode graph)).head? with
      | some nd =>
        some (S "title_" ++ pyReplaceStrAll (S "cluster_") [] sgp.1,
          createResourceNodeId nd.category nd.name nd.resource_type)
      | none => none
  if title_positioning.isEmpty then []
  else
    (if title_positioning.length > 1 then
      [S "        \x7brank=same; " ++
        pyJoin (S "; ") (title_positioning.map fun tp => S "\"" ++ tp.1 ++ S "\"") ++
        S ";\x7d"]
     else []) ++
    title_positioning.map fun tp =>
      S "        \"" ++ tp.1 ++ S "\" -> \"" ++ tp.2 ++
        S "\" [style=invis, weight=100, minlen=1];"

/-- `DOTGenerator._generate_subgraphs_with_container` (lines 395-638):
empty cluster map → empty string; otherwise the master container
enclosing every cluster block and the title positioning. -/
def generateSubgraphsWithContainer (cfg : VisualizationConfig)
    (graph : List GraphNode) (subgraphs : List (Str × Subgraph)) : Str :=
  if subgraphs.isEmpty then []
  else
    pyJoin (S "\n")
      ([S "    subgraph cluster_main \x7b",
        S "        label=\"Azure Resources\";",
        S "        style=\"dashed\";",
        S "        color=\"gray\";",
        S "        margin=\"2\";",
        []] ++
       (subgraphs.flatMap fun sgp => renderCluster cfg graph sgp.1 sgp.2) ++
       [[], S "        // Position external resource group titles"] ++
       titlePositioning graph subgraphs ++
       [S "    \x7d"])

/-- First captures of the `"(title_[^"]+)"` search (lines 100-103). -/
def quotedTitleCaptures (content : Str) : List Str :=
  content.tails.filterMap fun t =>
    match t with
    | '"' :: rest =>
      let body := rest.takeWhile fun c => c ≠ '"'
      if (S "title_").isPrefixOf body ∧ (S "title_").length < body.length ∧
          body.length < rest.length
      then some body else none
    | _ => none

/-- `[^"]*_[^"]*_[^"]+` over a quote-free body: some underscore preceded
by another underscore and followed by at least one character. -/
def matchesResourceIdPattern (body : Str) : Bool :=
  (List.range body.length).any fun j =>
    body.getD j ' ' = '_' ∧ j + 1 < body.length ∧
      (List.range j).any fun i => body.getD i ' ' = '_'

/-- Captures of the `"([^"]*_[^"]*_[^"]+)"` search (lines 106-109). -/
def quotedResourceCaptures (content : Str) : List Str :=
  content.tails.filterMap fun t =>
    match t with
    | '"' :: rest =>
      let body := rest.takeWhile fun c => c ≠ '"'
      if matchesResourceIdPattern body ∧ body.length < rest.length
      then some body else none
    | _ => none

/-- The subscription-title positioning block (lines 94-122). -/
def subscriptionPositioning (subscription_title subgraph_content standalone_nodes : Str) :
    Str :=
  if (pyStripStr subscription_title).isEmpty then []
  else
    let anchor1 : Option Str :=
      if pyContains subgraph_content (S "title_") then
        (quotedTitleCaptures subgraph_content).head?
      else none
    let anchor2 : Option Str :=
      match anchor1 with
      | some a => some a
      | none =>
        if !(pyStripStr subgraph_content).isEmpty then
          (quotedResourceCaptures subgraph_content).head?
        else none
    let anchor3 : Option Str :=
      match anchor2 with
      | some a => some a
      | none =>
        if pyContains standalone_nodes (S "internet_internet_gateway") then
          some (S "internet_internet_gateway")
        else none
    let connection_edge :=
      match anchor3 with
      | some a =>
        S "\n    \"subscription_title\" -> \"" ++ a ++
          S "\" [style=invis, weight=100, minlen=1];"
      | none => []
    S "\n    // Position subscription title above master container\n" ++
      S "    \x7brank=min; \"subscription_title\";\x7d" ++ connection_edge ++ S "\n"

/-- `DOTGenerator.generate_dot` (lines 50-151): the final document
assembly, stripped of surrounding whitespace. -/
def generateDot (graph_nodes : List GraphNode) (graph_edges : List GraphEdge)
    (subgraphs : List (Str × Subgraph)) (cfg : VisualizationConfig)
    (subscription_name subscription_id : Option Str) : Str :=
  let header := generateHeader cfg
  let graph_attrs := generateGraphAttributes cfg
  let node_defaults := generateNodeDefaults cfg
  let edge_defaults := generateEdgeDefaults cfg
  let subscription_title := generateSubscriptionTitle cfg subscription_name subscription_id
  let subgraph_content := generateSubgraphsWithContainer cfg graph_nodes subgraphs
  let standalone_nodes := generateStandaloneNodes cfg graph_nodes subgraphs
  let edges := generateEdges graph_edges
  let legend := if cfg.show_legends then generateLegend cfg graph_edges else []
  let positioning :=
    subscriptionPositioning subscription_title subgraph_content standalone_nodes
  pyStripStr (
    S "\n" ++ header ++ S "\n" ++ graph_attrs ++ S "\n" ++ node_defaults ++ S "\n" ++
    edge_defaults ++ S "\n\n" ++ subscription_title ++ S "\n\n" ++
    S "    // Master container encompassing all content\n" ++
    S "    subgraph cluster_master \x7b\n" ++
    S "        label=\"\";\n" ++
    S "        style=\"solid\";\n" ++
    S "        color=\"lightgray\";\n" ++
    S "        margin=\"10\";\n\n" ++
    indentContent subgraph_content 2 ++ S "\n" ++
    indentContent standalone_nodes 2 ++ S "\n" ++
    S "    \x7d\n\n" ++
    edges ++ S "\n" ++ positioning ++ S "\n" ++ legend ++ S "\n\x7d\n")

/-- Running brace-depth check: every close matches an open and the
document ends at depth zero. -/
def braceDepthOk : Str → Int → Bool
  | [], depth => depth = 0
  | c :: rest, depth =>
    if c = '\x7b' then braceDepthOk rest (depth + 1)
    else if c = '\x7d' then depth > 0 && braceDepthOk rest (depth - 1)
    else braceDepthOk rest depth

def balancedBraces (s : Str) : Bool := braceDepthOk s 0

/-- Number of (possibly overlapping) occurrences of `pat` in `s`. -/
def countSubstr (s pat : Str) : Nat :=
  (s.tails.filter fun t => pat.isPrefixOf t).length

set_option maxRecDepth 100000 in
/-- C8: on an empty graph with zero clusters the generator still emits a
syntactically valid, self-contained document — the digraph header, a
balanced brace structure, no edge declarations, only the master container
subgraph, and no node declarations; and a cluster whose node list ends up
empty is omitted from the cluster map altogether. -/
theorem C8_empty_document :
    (balancedBraces (generateDot [] [] [] { resource_groups := [] } none none) = true ∧
     (S "digraph AzureTopology \x7b").isPrefixOf
       (generateDot [] [] [] { resource_groups := [] } none none) = true ∧
     countSubstr (generateDot [] [] [] { resource_groups := [] } none none) (S "->") = 0 ∧
     countSubstr (generateDot [] [] [] { resource_groups := [] } none none)
       (S "subgraph") = 1 ∧
     countSubstr (generateDot [] [] [] { resource_groups := [] } none none) (S "\" [") = 0) ∧
    ∀ (resources : List AzureResource) (graphNodeIds : List Str),
      (createSubgraphs resources graphNodeIds).all (fun c => !c.2.nodes.isEmpty) = true := by
  constructor
  · decide
  · intro resources graphNodeIds
    rw [List.all_eq_true]
    intro c hc
    unfold createSubgraphs at hc
    rw [List.mem_filterMap] at hc
    obtain ⟨g, hg, heq⟩ := hc
    dsimp only at heq
    split at heq
    · exact Option.noConfusion heq
    · injection heq with heq
      subst heq
      simp_all

/-! ### C6: compute-only expansion idempotence -/

theorem addPass_cons (cond : AzureResource → Prop) [DecidablePred cond]
    (r : AzureResource) (rest st : List AzureResource) :
    addPass cond (r :: rest) st =
      addPass cond rest
        (if cond r ∧ r.name ∉ st.map AzureResource.name then st ++ [r] else st) := rfl

theorem addPass_mono (cond : AzureResource → Prop) [DecidablePred cond] :
    ∀ (pool st : List AzureResource) (x : AzureResource),
      x ∈ st → x ∈ addPass cond pool st
  | [], _, _, hx => hx
  | r :: rest, st, x, hx => by
    rw [addPass_cons]
    apply addPass_mono cond rest
    split
    · exact List.mem_append_left _ hx
    · exact hx

theorem addPass_src (cond : AzureResource → Prop) [DecidablePred cond] :
    ∀ (pool st : List AzureResource) (x : AzureResource),
      x ∈ addPass cond pool st → x ∈ st ∨ (x ∈ pool ∧ cond x)
  | [], _, _, hx => Or.inl hx
  | r :: rest, st, x, hx => by
    rw [addPass_cons] at hx
    rcases addPass_src cond rest _ x hx with h | h
    · split at h
      · rcases List.mem_append.mp h with h1 | h1
        · exact Or.inl h1
        · simp only [List.mem_singleton] at h1
          subst h1
          rename_i hcond
          exact Or.inr ⟨List.mem_cons_self _ _, hcond.1⟩
      · exact Or.inl h
    · exact Or.inr ⟨List.mem_cons_of_mem _ h.1, h.2⟩

theorem addPass_complete (cond : AzureResource → Prop) [DecidablePred cond] :
    ∀ (pool st : List AzureResource) (x : AzureResource),
      x ∈ pool → cond x →
      ∃ y ∈ addPass cond pool st, y.name = x.name
  | [], _, _, hx, _ => absurd hx (List.not_mem_nil _)
  | r :: rest, st, x, hx, hc => by
    rw [addPass_cons]
    rcases List.mem_cons.mp hx with h | h
    · subst h
      by_cases hb : x.name ∈ st.map AzureResource.name
      · obtain ⟨y, hy, hyname⟩ := List.mem_map.mp hb
        refine ⟨y, addPass_mono cond rest _ y ?_, hyname⟩
        split
        · exact List.mem_append_left _ hy
        · exact hy
      · refine ⟨x, addPass_mono cond rest _ x ?_, rfl⟩
        rw [if_pos ⟨hc, hb⟩]
        exact List.mem_append_right _ (List.mem_singleton.mpr rfl)
    · exact addPass_complete cond rest _ x h hc

theorem addPass_nodup (cond : AzureResource → Prop) [DecidablePred cond] :
    ∀ (pool st : List AzureResource),
      (st.map AzureResource.name).Nodup →
      ((addPass cond pool st).map AzureResource.name).Nodup
  | [], _, h => h
  | r :: rest, st, h => by
    rw [addPass_cons]
    apply addPass_nodup cond rest
    split
    · rename_i hcond
      rw [List.map_append]
      simp [List.nodup_append, h, hcond.2]
    · exact h

/-! Generic fold lemmas for the outer step loops. -/

theorem foldl_mem_mono {β : Type} (f : List AzureResource → β → List AzureResource)
    (hf : ∀ st b x, x ∈ st → x ∈ f st b) :
    ∀ (bs : List β) (st : List AzureResource) (x : AzureResource),
      x ∈ st → x ∈ bs.foldl f st
  | [], _, _, hx => hx
  | b :: rest, st, x, hx => foldl_mem_mono f hf rest _ x (hf st b x hx)

theorem foldl_mem_src {β : Type} (f : List AzureResource → β → List AzureResource)
    (Q : AzureResource → β → Prop)
    (hf : ∀ st b x, x ∈ f st b → x ∈ st ∨ Q x b) :
    ∀ (bs : List β) (st : List AzureResource) (x : AzureResource),
      x ∈ bs.foldl f st → x ∈ st ∨ ∃ b ∈ bs, Q x b
  | [], _, _, hx => Or.inl hx
  | b :: rest, st, x, hx => by
    rcases foldl_mem_src f Q hf rest _ x hx with h | h
    · rcases hf st b x h with h1 | h1
      · exact Or.inl h1
      · exact Or.inr ⟨b, List.mem_cons_self _ _, h1⟩
    · obtain ⟨b', hb', hq⟩ := h
      exact Or.inr ⟨b', List.mem_cons_of_mem _ hb', hq⟩

theorem foldl_mem_complete {β : Type} (f : List AzureResource → β → List AzureResource)
    (hmono : ∀ st b x, x ∈ st → x ∈ f st b)
    (P : β → Prop) (target : AzureResource)
    (hhit : ∀ st b, P b → ∃ y ∈ f st b, y.name = target.name) :
    ∀ (bs : List β) (st : List AzureResource),
      (∃ b ∈ bs, P b) → ∃ y ∈ bs.foldl f st, y.name = target.name
  | [], _, h => absurd h (by simp)
  | b :: rest, st, h => by
    rcases h with ⟨b', hb', hP⟩
    rcases List.mem_cons.mp hb' with heq | hmem
    · subst heq
      obtain ⟨y, hy, hyn⟩ := hhit st b' hP
      exact ⟨y, foldl_mem_mono f hmono rest _ y hy, hyn⟩
    · exact foldl_mem_complete f hmono P target hhit rest _ ⟨b', hmem, hP⟩

theorem foldl_names_nodup {β : Type} (f : List AzureResource → β → List AzureResource)
    (hf : ∀ st b, (st.map AzureResource.name).Nodup →
      ((f st b).map AzureResource.name).Nodup) :
    ∀ (bs : List β) (st : List AzureResource),
      (st.map AzureResource.name).Nodup →
      ((bs.foldl f st).map AzureResource.name).Nodup
  | [], _, h => h
  | b :: rest, st, h => foldl_names_nodup f hf rest _ (hf st b h)

/-! Step-level membership lemmas. -/

theorem step1_mono (resources computes st : List AzureResource) (x : AzureResource)
    (hx : x ∈ st) : x ∈ step1 resources computes st :=
  addPass_mono _ _ _ _ hx

theorem step1_src (resources computes st : List AzureResource) (x : AzureResource)
    (hx : x ∈ step1 resources computes st) :
    x ∈ st ∨ (x ∈ resources ∧ cond1 computes x) :=
  addPass_src _ _ _ _ hx

theorem step2_mono (resources computes st : List AzureResource) (x : AzureResource)
    (hx : x ∈ st) : x ∈ step2 resources computes st :=
  foldl_mem_mono _
    (fun st c x hx => foldl_mem_mono _
      (fun st _ x hx => addPass_mono _ _ st x hx) c.dependencyNames st x hx)
    computes st x hx

theorem step2_src (resources computes st : List AzureResource) (x : AzureResource)
    (hx : x ∈ step2 resources computes st) :
    x ∈ st ∨ ∃ c ∈ computes, ∃ dep ∈ c.dependencyNames,
      x ∈ resources ∧ condNamed dep relatedTy x :=
  foldl_mem_src _
    (fun x c => ∃ dep ∈ c.dependencyNames, x ∈ resources ∧ condNamed dep relatedTy x)
    (fun st c x hx => foldl_mem_src _
      (fun x dep => x ∈ resources ∧ condNamed dep relatedTy x)
      (fun st _ x hx => addPass_src _ resources st x hx) c.dependencyNames st x hx)
    computes st x hx

theorem step2_complete (resources computes st : List AzureResource) (x : AzureResource)
    (hpool : x ∈ resources) (hty : relatedTy x)
    (hdep : ∃ c ∈ computes, x.name ∈ c.dependencyNames) :
    ∃ y ∈ step2 resources computes st, y.name = x.name := by
  apply foldl_mem_complete _
    (fun st c x hx => foldl_mem_mono _
      (fun st _ x hx => addPass_mono _ _ st x hx) c.dependencyNames st x hx)
    (fun c => x.name ∈ c.dependencyNames) x ?_ computes st hdep
  intro st c hP
  apply foldl_mem_complete _ (fun st _ x hx => addPass_mono _ _ st x hx)
    (fun dep => dep = x.name) x ?_ c.dependencyNames st ⟨x.name, hP, rfl⟩
  intro st dep hdep'
  subst hdep'
  exact addPass_complete _ resources st x hpool ⟨rfl, hty⟩

theorem step3_mono (resources computes st : List AzureResource) (x : AzureResource)
    (hx : x ∈ st) : x ∈ step3 resources computes st :=
  addPass_mono _ _ _ _ hx

theorem step3_src (resources computes st : List AzureResource) (x : AzureResource)
    (hx : x ∈ step3 resources computes st) :
    x ∈ st ∨ (x ∈ resources ∧ cond3 computes x) :=
  addPass_src _ _ _ _ hx

theorem step4_mono (resources computes st : List AzureResource) (x : AzureResource)
    (hx : x ∈ st) : x ∈ step4 resources computes st := by
  apply foldl_mem_mono _ ?_ computes st x hx
  intro st c x hx
  dsimp only
  split
  · exact addPass_mono _ _ _ _ hx
  · exact hx

theorem step4_src (resources computes st : List AzureResource) (x : AzureResource)
    (hx : x ∈ step4 resources computes st) :
    x ∈ st ∨ ∃ c ∈ computes,
      pyLower c.resource_type = S "microsoft.compute/virtualmachines" ∧
        x ∈ resources ∧ cond4 c x := by
  apply foldl_mem_src _
    (fun x c => pyLower c.resource_type = S "microsoft.compute/virtualmachines" ∧
      x ∈ resources ∧ cond4 c x) ?_ computes st x hx
  intro st c x hx
  split at hx
  · rename_i hvm
    rcases addPass_src _ _ _ _ hx with h | h
    · exact Or.inl h
    · exact Or.inr ⟨hvm, h⟩
  · exact Or.inl hx

theorem step4_complete (resources computes st : List AzureResource)
    (c : AzureResource) (x : AzureResource) (hc : c ∈ computes)
    (hvm : pyLower c.resource_type = S "microsoft.compute/virtualmachines")
    (hpool : x ∈ resources) (hcond : cond4 c x) :
    ∃ y ∈ step4 resources computes st, y.name = x.name := by
  apply foldl_mem_complete _ ?hmono
    (fun c => pyLower c.resource_type = S "microsoft.compute/virtualmachines" ∧ cond4 c x)
    x ?hhit computes st ⟨c, hc, hvm, hcond⟩
  case hmono =>
    intro st c x hx
    dsimp only
    split
    · exact addPass_mono _ _ _ _ hx
    · exact hx
  case hhit =>
    intro st c hP
    dsimp only
    rw [if_pos hP.1]
    exact addPass_complete _ resources st x hpool hP.2

theorem step5_mono (resources snapshot st : List AzureResource) (x : AzureResource)
    (hx : x ∈ st) :
    x ∈ snapshot.foldl (fun rel nic =>
      if pyLower nic.resource_type = S "microsoft.network/networkinterfaces" then
        nic.dependencyNames.foldl (fun rel dep =>
          addPass (condNamed dep subnetTy) resources rel) rel
      else rel) st := by
  apply foldl_mem_mono _ ?_ snapshot st x hx
  intro st nic x hx
  dsimp only
  split
  · exact foldl_mem_mono _ (fun st _ x hx => addPass_mono _ _ st x hx) _ st x hx
  · exact hx

theorem step5_src (resources snapshot st : List AzureResource) (x : AzureResource)
    (hx : x ∈ snapshot.foldl (fun rel nic =>
      if pyLower nic.resource_type = S "microsoft.network/networkinterfaces" then
        nic.dependencyNames.foldl (fun rel dep =>
          addPass (condNamed dep subnetTy) resources rel) rel
      else rel) st) :
    x ∈ st ∨ ∃ nic ∈ snapshot,
      pyLower nic.resource_type = S "microsoft.network/networkinterfaces" ∧
        ∃ dep ∈ nic.dependencyNames, x ∈ resources ∧ condNamed dep subnetTy x := by
  apply foldl_mem_src _
    (fun x nic => pyLower nic.resource_type = S "microsoft.network/networkinterfaces" ∧
      ∃ dep ∈ nic.dependencyNames, x ∈ resources ∧ condNamed dep subnetTy x)
    ?_ snapshot st x hx
  intro st nic x hx
  split at hx
  · rename_i hnic
    rcases foldl_mem_src _
        (fun x dep => x ∈ resources ∧ condNamed dep subnetTy x)
        (fun st dep x hx => addPass_src _ resources st x hx)
        nic.dependencyNames st x hx with h | h
    · exact Or.inl h
    · exact Or.inr ⟨hnic, h⟩
  · exact Or.inl hx

theorem step5_complete (resources snapshot st : List AzureResource)
    (nic : AzureResource) (x : AzureResource) (hnicmem : nic ∈ snapshot)
    (hnic : pyLower nic.resource_type = S "microsoft.network/networkinterfaces")
    (hdep : x.name ∈ nic.dependencyNames)
    (hpool : x ∈ resources) (hty : subnetTy x) :
    ∃ y ∈ snapshot.foldl (fun rel nic =>
      if pyLower nic.resource_type = S "microsoft.network/networkinterfaces" then
        nic.dependencyNames.foldl (fun rel dep =>
          addPass (condNamed dep subnetTy) resources rel) rel
      else rel) st, y.name = x.name := by
  apply foldl_mem_complete _ ?hmono
    (fun nic => pyLower nic.resource_type = S "microsoft.network/networkinterfaces" ∧
      x.name ∈ nic.dependencyNames)
    x ?hhit snapshot st ⟨nic, hnicmem, hnic, hdep⟩
  case hmono =>
    intro st nic x hx
    dsimp only
    split
    · exact foldl_mem_mono _ (fun st _ x hx => addPass_mono _ _ st x hx) _ st x hx
    · exact hx
  case hhit =>
    intro st nic hP
    dsimp only
    rw [if_pos hP.1]
    apply foldl_mem_complete _ (fun st _ x hx => addPass_mono _ _ st x hx)
      (fun dep => dep = x.name) x ?_ nic.dependencyNames st ⟨x.name, hP.2, rfl⟩
    intro st dep hdep'
    subst hdep'
    exact addPass_complete _ resources st x hpool ⟨rfl, hty⟩

/-! Invariants of the compute-only output. -/

def computesOf (l : List AzureResource) : List AzureResource :=
  l.filter fun r => pyLower r.resource_type ∈ computeResourceTypes

theorem filterComputeOnly_spec (l : List AzureResource) :
    filterComputeOnly l =
      if (computesOf l).isEmpty then []
      else computesOf l ++ relatedPass l (computesOf l) := rfl

theorem relatedTy_not_compute (r : AzureResource) (h : relatedTy r) :
    pyLower r.resource_type ∉ computeResourceTypes := by
  unfold relatedTy computeRelatedTypes at h
  simp only [List.mem_cons, List.not_mem_nil, or_false] at h
  rcases h with h | h | h | h | h | h | h | h <;> rw [h] <;> decide

theorem subnetTy_related (r : AzureResource) (h : subnetTy r) : relatedTy r := by
  unfold subnetTy at h
  unfold relatedTy
  rw [h]
  decide

theorem chain4_members (resources computes : List AzureResource) (x : AzureResource)
    (hx : x ∈ chain4 resources computes) : x ∈ resources ∧ relatedTy x := by
  unfold chain4 at hx
  rcases step4_src _ _ _ _ hx with hx | ⟨c, _, _, hxr, hc4⟩
  · rcases step3_src _ _ _ _ hx with hx | ⟨hxr, hc3⟩
    · rcases step2_src _ _ _ _ hx with hx | ⟨c, _, dep, _, hxr, hcn⟩
      · rcases step1_src _ _ _ _ hx with hx | ⟨hxr, hc1⟩
        · exact absurd hx (List.not_mem_nil _)
        · exact ⟨hxr, hc1.1⟩
      · exact ⟨hxr, hcn.2⟩
    · exact ⟨hxr, hc3.1⟩
  · exact ⟨hxr, hc4.1⟩

theorem chain4_subset_relatedPass (resources computes : List AzureResource)
    (x : AzureResource) (hx : x ∈ chain4 resources computes) :
    x ∈ relatedPass resources computes :=
  step5_mono resources (chain4 resources computes) (chain4 resources computes) x hx

theorem relatedPass_members (resources computes : List AzureResource) (x : AzureResource)
    (hx : x ∈ relatedPass resources computes) : x ∈ resources ∧ relatedTy x := by
  unfold relatedPass step5 at hx
  rcases step5_src resources (chain4 resources computes) (chain4 resources computes)
      x hx with hx | ⟨nic, _, _, dep, _, hxr, hcn⟩
  · exact chain4_members _ _ _ hx
  · exact ⟨hxr, subnetTy_related _ hcn.2⟩

theorem step2_nodup (resources computes st : List AzureResource)
    (h : (st.map AzureResource.name).Nodup) :
    ((step2 resources computes st).map AzureResource.name).Nodup :=
  foldl_names_nodup _
    (fun st c h => foldl_names_nodup _
      (fun st _ h => addPass_nodup _ _ st h) c.dependencyNames st h)
    computes st h

theorem step4_nodup (resources computes st : List AzureResource)
    (h : (st.map AzureResource.name).Nodup) :
    ((step4 resources computes st).map AzureResource.name).Nodup := by
  apply foldl_names_nodup _ ?_ computes st h
  intro st c h
  dsimp only
  split
  · exact addPass_nodup _ _ _ h
  · exact h

theorem step5_nodup (resources snapshot st : List AzureResource)
    (h : (st.map AzureResource.name).Nodup) :
    (((snapshot.foldl (fun rel nic =>
      if pyLower nic.resource_type = S "microsoft.network/networkinterfaces" then
        nic.dependencyNames.foldl (fun rel dep =>
          addPass (condNamed dep subnetTy) resources rel) rel
      else rel) st)).map AzureResource.name).Nodup := by
  apply foldl_names_nodup _ ?_ snapshot st h
  intro st nic h
  dsimp only
  split
  · exact foldl_names_nodup _ (fun st _ h => addPass_nodup _ _ st h) _ st h
  · exact h

theorem chain4_names_nodup (resources computes : List AzureResource) :
    ((chain4 resources computes).map AzureResource.name).Nodup :=
  step4_nodup resources computes _
    (addPass_nodup _ _ _
      (step2_nodup resources computes _
        (addPass_nodup _ _ _ (by simp))))

theorem relatedPass_names_nodup (resources computes : List AzureResource) :
    ((relatedPass resources computes).map AzureResource.name).Nodup :=
  step5_nodup resources (chain4 resources computes) (chain4 resources computes)
    (chain4_names_nodup resources computes)

theorem computesOf_append (a b : List AzureResource) :
    computesOf (a ++ b) = computesOf a ++ computesOf b := by
  unfold computesOf
  exact List.filter_append _ _

theorem computesOf_eq_self_of (m : List AzureResource)
    (h : ∀ a ∈ m, pyLower a.resource_type ∈ computeResourceTypes) :
    computesOf m = m := by
  unfold computesOf
  apply List.filter_eq_self.mpr
  intro a ha
  exact decide_eq_true (h a ha)

theorem computesOf_eq_nil_of (m : List AzureResource)
    (h : ∀ a ∈ m, pyLower a.resource_type ∉ computeResourceTypes) :
    computesOf m = [] := by
  unfold computesOf
  apply List.filter_eq_nil_iff.mpr
  intro a ha
  simp only [decide_eq_true_eq]
  exact h a ha

theorem mem_computesOf_compute (l : List AzureResource) (a : AzureResource)
    (ha : a ∈ computesOf l) : pyLower a.resource_type ∈ computeResourceTypes := by
  unfold computesOf at ha
  exact of_decide_eq_true (List.mem_filter.mp ha).2

theorem computesOf_filterComputeOnly (l : List AzureResource)
    (hK : ¬(computesOf l).isEmpty) :
    computesOf (filterComputeOnly l) = computesOf l := by
  rw [filterComputeOnly_spec, if_neg hK, computesOf_append,
    computesOf_eq_self_of (computesOf l) (mem_computesOf_compute l),
    computesOf_eq_nil_of _
      (fun a ha => relatedTy_not_compute a (relatedPass_members _ _ _ ha).2),
    List.append_nil]

theorem mem_output_related (l : List AzureResource) (y : AzureResource)
    (hy : y ∈ filterComputeOnly l) (hty : relatedTy y) :
    y ∈ relatedPass l (computesOf l) := by
  rw [filterComputeOnly_spec] at hy
  split at hy
  · exact absurd hy (List.not_mem_nil _)
  · rcases List.mem_append.mp hy with h | h
    · exact absurd (mem_computesOf_compute l y h) (relatedTy_not_compute y hty)
    · exact h

theorem relatedPass_subset_output (l : List AzureResource)
    (hK : ¬(computesOf l).isEmpty) (x : AzureResource)
    (hx : x ∈ relatedPass l (computesOf l)) : x ∈ filterComputeOnly l := by
  rw [filterComputeOnly_spec, if_neg hK]
  exact List.mem_append_right _ hx

/-! Re-inclusion: every resource admitted by the first pass is admitted
again when the pass is re-run on its own output. -/

theorem chain4_reinclude (l : List AzureResource) (hK : ¬(computesOf l).isEmpty)
    (x : AzureResource) (hx : x ∈ chain4 l (computesOf l)) :
    x ∈ chain4 (filterComputeOnly l) (computesOf l) := by
  have hxR : x ∈ relatedPass l (computesOf l) := chain4_subset_relatedPass _ _ _ hx
  have hxF : x ∈ filterComputeOnly l := relatedPass_subset_output l hK x hxR
  have close : ∀ y, y ∈ chain4 (filterComputeOnly l) (computesOf l) →
      y.name = x.name → x ∈ chain4 (filterComputeOnly l) (computesOf l) := by
    intro y hy hn
    have hymem := chain4_members _ _ _ hy
    have hyR : y ∈ relatedPass l (computesOf l) :=
      mem_output_related l y hymem.1 hymem.2
    have heq : y = x :=
      List.inj_on_of_nodup_map (relatedPass_names_nodup l (computesOf l)) hyR hxR hn
    exact heq ▸ hy
  unfold chain4 at hx
  rcases step4_src _ _ _ _ hx with hx3 | ⟨c, hcK, hvm, _, hc4⟩
  · rcases step3_src _ _ _ _ hx3 with hx2 | ⟨_, hc3⟩
    · rcases step2_src _ _ _ _ hx2 with hx1 | ⟨c, hcK, dep, hdep, _, hcn⟩
      · rcases step1_src _ _ _ _ hx1 with hx0 | ⟨_, hc1⟩
        · exact absurd hx0 (List.not_mem_nil _)
        · obtain ⟨y, hy, hn⟩ :=
            addPass_complete (cond1 (computesOf l)) (filterComputeOnly l)
              [] x hxF hc1
          exact close y
            (step4_mono _ _ _ y (step3_mono _ _ _ y (step2_mono _ _ _ y hy))) hn
      · rw [← hcn.1] at hdep
        obtain ⟨y, hy, hn⟩ :=
          step2_complete (filterComputeOnly l) (computesOf l)
            (step1 (filterComputeOnly l) (computesOf l) []) x hxF hcn.2
            ⟨c, hcK, hdep⟩
        exact close y (step4_mono _ _ _ y (step3_mono _ _ _ y hy)) hn
    · obtain ⟨y, hy, hn⟩ :=
        addPass_complete (cond3 (computesOf l)) (filterComputeOnly l)
          (step2 (filterComputeOnly l) (computesOf l)
            (step1 (filterComputeOnly l) (computesOf l) [])) x hxF hc3
      exact close y (step4_mono _ _ _ y hy) hn
  · obtain ⟨y, hy, hn⟩ :=
      step4_complete (filterComputeOnly l) (computesOf l)
        (step3 (filterComputeOnly l) (computesOf l)
          (step2 (filterComputeOnly l) (computesOf l)
            (step1 (filterComputeOnly l) (computesOf l) []))) c x hcK hvm hxF hc4
    exact close y hy hn

theorem relatedPass_reinclude (l : List AzureResource) (hK : ¬(computesOf l).isEmpty)
    (x : AzureResource) (hx : x ∈ relatedPass l (computesOf l)) :
    x ∈ relatedPass (filterComputeOnly l) (computesOf l) := by
  have hxF : x ∈ filterComputeOnly l := relatedPass_subset_output l hK x hx
  have close : ∀ y, y ∈ relatedPass (filterComputeOnly l) (computesOf l) →
      y.name = x.name → x ∈ relatedPass (filterComputeOnly l) (computesOf l) := by
    intro y hy hn
    have hymem := relatedPass_members _ _ _ hy
    have hyR : y ∈ relatedPass l (computesOf l) :=
      mem_output_related l y hymem.1 hymem.2
    have heq : y = x :=
      List.inj_on_of_nodup_map (relatedPass_names_nodup l (computesOf l)) hyR hx hn
    exact heq ▸ hy
  have hx' := hx
  unfold relatedPass step5 at hx'
  rcases step5_src l (chain4 l (computesOf l)) (chain4 l (computesOf l)) x hx'
    with hx4 | ⟨nic, hnicmem, hnic, dep, hdep, _, hcn⟩
  · have h2 := chain4_reinclude l hK x hx4
    exact step5_mono (filterComputeOnly l) _ _ x h2
  · have hnic2 := chain4_reinclude l hK nic hnicmem
    rw [← hcn.1] at hdep
    obtain ⟨y, hy, hn⟩ :=
      step5_complete (filterComputeOnly l)
        (chain4 (filterComputeOnly l) (computesOf l))
        (chain4 (filterComputeOnly l) (computesOf l))
        nic x hnic2 hnic hdep hxF hcn.2
    exact close y hy hn

/-- **C6**: applying the compute-only filter to its own output returns the
same resource set: the compute members of the output are exactly the
original compute members, and every related resource admitted by the first
pass is admitted again by the second (membership in both directions, i.e.
extensional idempotence of `_filter_compute_only`). -/
theorem C6_compute_only_idempotent (resources : List AzureResource)
    (r : AzureResource) :
    r ∈ filterComputeOnly (filterComputeOnly resources) ↔
      r ∈ filterComputeOnly resources := by
  by_cases hK : (computesOf resources).isEmpty
  · have h1 : filterComputeOnly resources = [] := by
      rw [filterComputeOnly_spec, if_pos hK]
    have h2 : filterComputeOnly ([] : List AzureResource) = [] := rfl
    rw [h1, h2]
  · have hcomp : computesOf (filterComputeOnly resources) = computesOf resources :=
      computesOf_filterComputeOnly resources hK
    have hK2 : ¬(computesOf (filterComputeOnly resources)).isEmpty := by
      rw [hcomp]; exact hK
    have hFF : filterComputeOnly (filterComputeOnly resources) =
        computesOf resources ++
          relatedPass (filterComputeOnly resources) (computesOf resources) := by
      rw [filterComputeOnly_spec (filterComputeOnly resources), if_neg hK2, hcomp]
    have hF : filterComputeOnly resources =
        computesOf resources ++ relatedPass resources (computesOf resources) := by
      rw [filterComputeOnly_spec resources, if_neg hK]
    rw [hFF]
    constructor
    · intro hr
      rcases List.mem_append.mp hr with h | h
      · rw [hF]
        exact List.mem_append_left _ h
      · exact (relatedPass_members _ _ _ h).1
    · intro hr
      rw [hF] at hr
      rcases List.mem_append.mp hr with h | h
      · exact List.mem_append_left _ h
      · exact List.mem_append_right _ (relatedPass_reinclude resources hK r h)

end AzViz
